import Mathlib

/-!
Verification development for the `sk-toolbox` danmaku-conversion engine
(`asobi-comment/xml2ass.py` and `asobi-comment/json2xml.py`).

The Python source is shallowly embedded: floats become `ℚ`, Python integers
become `Int`/`Nat`, fallible operations (float division, which raises
`ZeroDivisionError` on a zero denominator) become `Except`-valued functions,
and the four parallel per-lane lists of the scheduler become a structure of
four lists.  All definitions follow the source line by line; definitions
written from the specification's words instead are marked as such in their
doc comments.
-/

namespace SkToolbox

/-- Python's `sub in s` substring test (for `str` operands): `sub` occurs as a
contiguous substring of `s`.  Stated on the character lists. -/
def pyIn (sub s : String) : Prop := sub.toList <:+: s.toList

instance (sub s : String) : Decidable (pyIn sub s) :=
  inferInstanceAs (Decidable (sub.toList <:+: s.toList))

/-- Boolean form of `pyIn`. -/
def pyInB (sub s : String) : Bool := decide (pyIn sub s)

/-- Python slice `s[a:b]` for `0 ≤ a ≤ b` (the only form the source uses). -/
def pySlice (s : String) (a b : Nat) : String :=
  String.mk ((s.toList.drop a).take (b - a))

/-- Python `s.startswith(pre)`. -/
def pyStartsWith (s pre : String) : Bool :=
  pre.toList.isPrefixOf s.toList

/-- Python `s.replace(old, new)` on character lists: replace non-overlapping
occurrences left to right.  `fuel` bounds the recursion structurally; every
step consumes at least one character (the source only replaces non-empty
patterns), so `fuel = length` never runs out. -/
def replaceFuel (pat rep : List Char) : Nat → List Char → List Char
  | 0, l => l
  | _ + 1, [] => []
  | fuel + 1, c :: rest =>
    if pat.isPrefixOf (c :: rest) then
      rep ++ replaceFuel pat rep fuel ((c :: rest).drop pat.length)
    else c :: replaceFuel pat rep fuel rest

/-- Python `s.replace(old, new)` (for the source's non-empty patterns). -/
def pyReplace (s pat rep : String) : String :=
  if pat.toList = [] then s
  else String.mk (replaceFuel pat.toList rep.toList s.toList.length s.toList)

/-- Python `s.split(sep)` for a non-empty separator, on character lists:
split at non-overlapping separator occurrences left to right; `acc` holds the
current piece reversed.  `fuel` bounds the recursion structurally and
`length + 1` never runs out. -/
def splitOnFuel (sep : List Char) : Nat → List Char → List Char → List (List Char)
  | 0, acc, l => [acc.reverse ++ l]
  | _ + 1, acc, [] => [acc.reverse]
  | fuel + 1, acc, c :: rest =>
    if sep.isPrefixOf (c :: rest) then
      acc.reverse :: splitOnFuel sep fuel [] ((c :: rest).drop sep.length)
    else splitOnFuel sep fuel (c :: acc) rest

/-- Python `s.split(sep)` (for the source's non-empty separators). -/
def pySplitOn (s sep : String) : List String :=
  if sep.toList = [] then [s]
  else (splitOnFuel sep.toList (s.toList.length + 1) [] s.toList).map String.mk

/-- Python `enumerate` mapped over a list, carrying the running index. -/
def enumMap {α β : Type} (f : Nat → α → β) : Nat → List α → List β
  | _, [] => []
  | i, a :: rest => f i a :: enumMap f (i + 1) rest

/-- Python float division: raises `ZeroDivisionError` on a zero denominator.
Embeds `/` at the two places of the source where the denominator is not a
manifestly nonzero constant. -/
def pydiv (a b : ℚ) : Except String ℚ :=
  if b = 0 then Except.error "ZeroDivisionError" else Except.ok (a / b)

/-- Python `int(x)` on a float: truncation toward zero. -/
def pyInt (q : ℚ) : Int :=
  if q < 0 then -(Int.floor (-q)) else Int.floor q

/-- Python float `%` with a positive modulus: `a - b*⌊a/b⌋` (sign follows the
divisor, unlike `fmod`). -/
def pyMod (a b : ℚ) : ℚ := a - b * (Int.floor (a / b) : ℚ)

/-- Python float floor division `a // b`. -/
def pyFloorDiv (a b : ℚ) : ℚ := ((Int.floor (a / b) : ℤ) : ℚ)

/-- Python `'%02d' % n` / `f"{n:02d}"`: decimal rendering padded with `0` to
width 2 (the sign counts toward the width, as in Python). -/
def pad2 (n : Int) : String :=
  let s := toString n
  if s.length < 2 then "0" ++ s else s

/-- `re.sub(r'\d+', '', s)`: remove every digit character. -/
def stripDigits (s : String) : String :=
  String.mk (s.toList.filter (fun c => !c.isDigit))

/-- The `Config` dataclass of `xml2ass.py`, field for field, with the
source's defaults.  Floats are embedded as `ℚ`. -/
structure Config where
  limit_line_amount : Nat := 11
  ass_code : String := "\\fnMS PGothic\\b1\\bord2\\blur0"
  danmaku_size : Int := 46
  danmaku_density : Int := 10
  start_time_adjust : ℚ := 0
  danmaku_speed_adjust : ℚ := 1
  use_ass_colors : Bool := true
  difficult_vip : Bool := false
  filter_outsider : Bool := false
  use_speed_a : Bool := false
  manual_add_office_id : List String := []
  filter_keywords : List String := []
deriving DecidableEq

/-- One normalized comment record, as built by `load_xml` (the dictionaries of
`self.all_danmaku`): `text`, `vpos`, `user_id`, `premium`, `mail`, `date`,
`date_usec`.  `load_xml` never stores a `type` key, so the dictionary lookup
`danmaku.get('type') == 'official'` in `convert_to_ass` is always false and
has no counterpart field here. -/
structure Danmaku where
  text : String
  vpos : Int
  user_id : String
  premium : String
  mail : String
  date : Int
  date_usec : Int
deriving DecidableEq

/-- `VIDEO_WIDTH` of `NicoXML2ASS`. -/
def VIDEO_WIDTH : Int := 1280

/-- `VIDEO_HEIGHT` of `NicoXML2ASS`. -/
def VIDEO_HEIGHT : Int := 720

/-- The `CSS2ASS` dictionary: CSS color name to `#RRGGBB` hex. -/
def CSS2ASS : List (String × String) :=
  [("white", "#FFFFFF"), ("red", "#FF0000"), ("pink", "#FF8080"),
   ("orange", "#FFA500"), ("yellow", "#FFFF00"), ("green", "#00FF00"),
   ("cyan", "#00FFFF"), ("blue", "#0000FF"), ("purple", "#C000FF"),
   ("black", "#000000"), ("white2", "#CCCC99"), ("niconicowhite", "#CCCC99"),
   ("red2", "#CC0033"), ("truered", "#CC0033"), ("pink2", "#FF33CC"),
   ("orange2", "#FF6600"), ("passionorange", "#FF6600"), ("yellow2", "#999900"),
   ("madyellow", "#999900"), ("green2", "#00CC66"), ("elementalgreen", "#00CC66"),
   ("cyan2", "#00CCCC"), ("blue2", "#3399FF"), ("marineblue", "#3399FF"),
   ("purple2", "#6633CC"), ("nobleviolet", "#6633CC"), ("black2", "#666666")]

/-- Dictionary lookup `CSS2ASS[name]` guarded by `name in CSS2ASS`. -/
def css2assLookup (name : String) : Option String :=
  (CSS2ASS.find? (fun kv => kv.fst = name)).map (fun kv => kv.snd)

/-- Reorder a 7-character `#RRGGBB` string into the ASS `HBBGGRR` form:
`f"H{p[5:7]}{p[3:5]}{p[1:3]}"`. -/
def hexToAss (p : String) : String :=
  "H" ++ pySlice p 5 7 ++ pySlice p 3 5 ++ pySlice p 1 3

/-- The body of the `for part in parts` loop of `_get_color_ass`: scan the
space-separated parts in order; for each part first try the `#RRGGBB` form,
then the digit-stripped CSS name; the first part that matches decides. -/
def colorOfParts : List String → String
  | [] => "HFFFFFF"
  | p :: rest =>
    if pyStartsWith p "#" ∧ p.length = 7 then hexToAss p
    else
      match css2assLookup (stripDigits p) with
      | some hex => hexToAss hex
      | none => colorOfParts rest

/-- `_get_color_ass`: extract an ASS color from the `mail` style token. -/
def get_color_ass (mail : String) : String :=
  if mail = "" then "HFFFFFF"
  else colorOfParts (pySplitOn mail " ")

/-- `_calc_text_length`: every character, multi-byte or not, contributes 2,
and the total is halved — i.e. uniform weight 1 per character.  The
`ord(char) > 127` branch of the source is kept even though both branches
add the same amount. -/
def calc_text_length (text : String) : Int :=
  (text.toList.foldl (fun length c => if c.toNat > 127 then length + 2 else length + 2) 0) / 2

/-- `_format_time`: render seconds as `H:MM:SS.CC`. -/
def format_time (seconds : ℚ) : String :=
  let hours := pyInt (pyFloorDiv seconds 3600)
  let minutes := pyInt (pyFloorDiv (pyMod seconds 3600) 60)
  let secs := pyInt (pyMod seconds 60)
  let centisecs := pyInt ((pyMod seconds 1) * 100)
  toString hours ++ ":" ++ pad2 minutes ++ ":" ++ pad2 secs ++ "." ++ pad2 centisecs

/-- `_format_time_mm_ss`: render seconds as `MM:SS`. -/
def format_time_mm_ss (seconds : ℚ) : String :=
  let minutes := pyInt (pyFloorDiv seconds 60)
  let secs := pyInt (pyMod seconds 60)
  pad2 minutes ++ ":" ++ pad2 secs

/-- Python `//` on integers: floor division. -/
def pyIDiv (a b : Int) : Int := Int.fdiv a b

/-- `re.sub(r'<[^>]+>', '', text)` on the character list: each `<`, followed
by at least one non-`>` character and then a `>`, is removed together with
the enclosed characters; scanning resumes after the removed match, as
`re.sub` does.  `fuel` bounds the recursion structurally; every step consumes
at least one character, so `fuel = length` never runs out. -/
def stripTagsFuel : Nat → List Char → List Char
  | 0, l => l
  | _ + 1, [] => []
  | fuel + 1, c :: rest =>
    if c = '<' then
      match rest.findIdx? (fun x => x = '>') with
      | some j =>
        if 1 ≤ j then stripTagsFuel fuel (rest.drop (j + 1))
        else c :: stripTagsFuel fuel rest
      | none => c :: stripTagsFuel fuel rest
    else c :: stripTagsFuel fuel rest

/-- `re.sub(r'<[^>]+>', '', text)`. -/
def stripTags (l : List Char) : List Char := stripTagsFuel l.length l

/-- The special-command substrings that make `_process_office_danmaku`
return `None`. -/
def officeSkipList : List String :=
  ["/vote", "/nicoad", "/gift", "/spi", "/info", "/clear"]

/-- `_process_office_danmaku`: render an operator comment as a background
quad plus a centered text line, or `none` for special commands. -/
def process_office_danmaku (d : Danmaku) : Option String :=
  let text := d.text
  if officeSkipList.any (fun x => pyInB x text) then none
  else
    let text :=
      if pyStartsWith text "/" then
        match text.toList.findIdx? (fun c => c = ' ') with
        | some space_idx =>
          if space_idx > 0 then String.mk (text.toList.drop (space_idx + 1)) else text
        | none => text
      else text
    let text := if pyStartsWith text "<" then String.mk (stripTags text.toList) else text
    let text := pyReplace (pyReplace text "\n" "\\N") "http" "\\N\x7b\\u1\\1c&HFFCF00&\x7dhttp"
    let start_time := format_time ((d.vpos : ℚ) / 100)
    let end_time := format_time ((d.vpos : ℚ) / 100 + 10)
    let office_bg_height : Int := 32
    let lines := pySplitOn text "\\N"
    let office_bg_height := office_bg_height + office_bg_height * ((lines.length : Int) - 1)
    let office_bg := "m 0 0 l " ++ toString (VIDEO_WIDTH + 20) ++ " 0 l " ++
      toString (VIDEO_WIDTH + 20) ++ " " ++ toString office_bg_height ++ " l 0 " ++
      toString office_bg_height
    let bg_line := "Dialogue: 5," ++ start_time ++ "," ++ end_time ++
      ",Office,,0,0,0,,\x7b\\an5\\p1\\pos(" ++ toString (pyIDiv VIDEO_WIDTH 2) ++ "," ++
      toString (pyIDiv office_bg_height 2) ++
      ")\\bord0\\1c&H000000&\\1a&H78&\x7d" ++ office_bg ++ "\n"
    let text_line := "Dialogue: 5," ++ start_time ++ "," ++ end_time ++
      ",Office,,0,0,0,,\x7b\\an5\\fscx90\\fscy90\\pos(" ++ toString (pyIDiv VIDEO_WIDTH 2) ++
      "," ++ toString (pyIDiv office_bg_height 2) ++
      ")\\bord0\\1c&HFFFFFF&\x7d" ++ text ++ "\n"
    some (bg_line ++ text_line)

/-- `_process_aa_danmaku`: render a long (ASCII-art) comment line by line, or
`none` when the text starts with `/`.  The source additionally appends the
start time to `self.aa_start_times`, which feeds only the console summary in
`save_ass`, never the ASS document, and is not modelled. -/
def process_aa_danmaku (d : Danmaku) : Option String :=
  if pyStartsWith d.text "/" then none
  else
    let start_time := format_time ((d.vpos : ℚ) / 100)
    let end_time := format_time ((d.vpos : ℚ) / 100 + 8)
    let color_ass := get_color_ass d.mail
    let aa_lines := pySplitOn d.text "\n"
    let aa_size : Int := 20
    let aa_high_adjust : Int := 80
    let is_fixed := ["shita", "ue", "naka"].any (fun x => pyInB x d.mail)
    some (String.join (enumMap (fun i line =>
      let y_pos := (aa_size - 6) * (i : Int) + aa_high_adjust
      if is_fixed then
        "Dialogue: 4," ++ start_time ++ "," ++ end_time ++
          ",AA,,0,0,0,,\x7b\\an4\\fsp-1\\pos(" ++ toString (pyIDiv VIDEO_WIDTH 2 - 250) ++
          ", " ++ toString y_pos ++ ")\\1c&" ++ color_ass ++ "&\x7d" ++ line ++ "\n"
      else
        "Dialogue: 4," ++ start_time ++ "," ++ end_time ++
          ",AA,,0,0,0,,\x7b\\an4\\fsp-1\\move(" ++ toString VIDEO_WIDTH ++ ", " ++
          toString y_pos ++ ", " ++ toString (-64 * 10 : Int) ++ ", " ++ toString y_pos ++
          ")\\1c&" ++ color_ass ++ "&\x7d" ++ line ++ "\n") 0 aa_lines))

/-- `_process_shita_danmaku`: render a bottom-pinned comment (always
produces a line). -/
def process_shita_danmaku (d : Danmaku) : String :=
  let start_time := format_time ((d.vpos : ℚ) / 100)
  let end_time := format_time ((d.vpos : ℚ) / 100 + 6)
  let color_ass := get_color_ass d.mail
  "Dialogue: 2," ++ start_time ++ "," ++ end_time ++
    ",Shita,,0,0,0,,\x7b\\an2\\1c&" ++ color_ass ++ "&\x7d" ++ d.text ++ "\n"

/-- The scheduler's sole mutable state: the four parallel per-lane lists of
`convert_to_ass` (`danmaku_passageway`, `danmaku_passageway_width`,
`danmaku_passageway_speed`, `danmaku_passageway_finish`). -/
structure Passageway where
  start : List ℚ
  width : List Int
  speed : List ℚ
  finish : List ℚ
deriving DecidableEq

/-- The initial lane state: four lists of `limit_line_amount` zeros. -/
def initPassageway (cfg : Config) : Passageway :=
  ⟨List.replicate cfg.limit_line_amount 0, List.replicate cfg.limit_line_amount 0,
   List.replicate cfg.limit_line_amount 0, List.replicate cfg.limit_line_amount 0⟩

/-- Overwrite the four fields of lane `i` (the four assignments performed at
each acceptance site of `_process_normal_danmaku`). -/
def writeLane (pw : Passageway) (i : Nat) (s : ℚ) (w : Int) (sp fin : ℚ) : Passageway :=
  ⟨pw.start.set i s, pw.width.set i w, pw.speed.set i sp, pw.finish.set i fin⟩

/-- The identical four assignments + `break` of each acceptance site:
`passageway[i] = start_seconds; …_width[i] = text_width;
…_speed[i] = average_speed; …_finish[i] = VIDEO_WIDTH / average_speed`
(the last being a float division that can raise). -/
def acceptInto (pw : Passageway) (i : Nat) (start_seconds : ℚ) (text_width : Int)
    (average_speed : ℚ) : Except String (Option Nat × Passageway) :=
  match pydiv (VIDEO_WIDTH : ℚ) average_speed with
  | Except.error e => Except.error e
  | Except.ok fin =>
    Except.ok (some i, writeLane pw i start_seconds text_width average_speed fin)

/-- The `for i in range(len(passageway))` scan of `_process_normal_danmaku`:
find the first lane accepting the comment (free-lane sentinel `== 0`, cleared
occupant, or catch-up rule), write the lane and stop, or return `none` after
scanning every lane.  `i` is the loop index and `remaining` the number of
indices still to visit (`len(passageway) − i`; initially the full length, so
the scan visits exactly `range(len(passageway))`). -/
def findLane (cfg : Config) (start_seconds : ℚ) (text_width : Int) (average_speed : ℚ) :
    Nat → Nat → Passageway → Except String (Option Nat × Passageway)
  | _, 0, pw => Except.ok (none, pw)
  | i, remaining + 1, pw =>
    if pw.start.getD i 0 = 0 then
      acceptInto pw i start_seconds text_width average_speed
    else
      let range_dist := (start_seconds - pw.start.getD i 0) * pw.speed.getD i 0 +
        (cfg.danmaku_density : ℚ)
      if range_dist ≥ (pw.width.getD i 0 : ℚ) then
        if pw.width.getD i 0 ≥ text_width then
          acceptInto pw i start_seconds text_width average_speed
        else
          match pydiv (range_dist - (pw.width.getD i 0 : ℚ))
              (average_speed - pw.speed.getD i 0) with
          | Except.error e => Except.error e
          | Except.ok catch_time =>
            if catch_time > 0 ∧
                pw.finish.getD i 0 - (start_seconds - pw.start.getD i 0) < catch_time then
              acceptInto pw i start_seconds text_width average_speed
            else
              findLane cfg start_seconds text_width average_speed (i + 1) remaining pw
      else
        findLane cfg start_seconds text_width average_speed (i + 1) remaining pw

/-- `start_seconds` of `_process_normal_danmaku`:
`danmaku['vpos'] / 100 + self.config.start_time_adjust`. -/
def startSeconds (cfg : Config) (d : Danmaku) : ℚ :=
  (d.vpos : ℚ) / 100 + cfg.start_time_adjust

/-- `text_width` of `_process_normal_danmaku`:
`_calc_text_length(text) * (danmaku_size + 2)`. -/
def textWidth (cfg : Config) (d : Danmaku) : Int :=
  calc_text_length d.text * (cfg.danmaku_size + 2)

/-- `real_speed` of `_process_normal_danmaku`: the base value
`6000 + 1000*danmaku_speed_adjust`, replaced by the two-tier heuristic when
`use_speed_a` is set. -/
def realSpeed (cfg : Config) (d : Danmaku) : ℚ :=
  let text_length := calc_text_length d.text
  let real_speed : ℚ := 6000 + 1000 * cfg.danmaku_speed_adjust
  if cfg.use_speed_a then
    let short_length : Int := 4
    let long_length : Int := 12
    if text_length ≤ short_length then
      ((6000 - short_length * (cfg.danmaku_size + 2) : Int) : ℚ) +
        ((pyInt (((short_length * (cfg.danmaku_size + 2) : Int) : ℚ) *
          ((text_length : ℚ) / (short_length : ℚ)))) : ℚ) +
        1000 * cfg.danmaku_speed_adjust
    else if text_length ≥ long_length then
      6000 + ((2 * (cfg.danmaku_size + 2) * (text_length - long_length) : Int) : ℚ) +
        1000 * cfg.danmaku_speed_adjust
    else
      real_speed
  else
    real_speed

/-- The `f"Dialogue: 1,…"` line of `_process_normal_danmaku`.  The rational
`real_speed` is rendered with `toString`, standing in for CPython's float
rendering in the `\move` tag; no claim depends on that numeral's spelling. -/
def normalDialogue (start_time end_time : String) (sx sy ex ey : Int) (real_speed : ℚ)
    (color_ass alpha_ass ass_code text : String) : String :=
  "Dialogue: 1," ++ start_time ++ "," ++ end_time ++
    ",Danmaku,,0,0,0,,\x7b\\an4\\move(" ++ toString sx ++ "," ++ toString sy ++ "," ++
    toString ex ++ "," ++ toString ey ++ ",0," ++ toString real_speed ++
    ")\x7d\x7b\\1c&" ++ color_ass ++ "&\x7d\x7b" ++ alpha_ass ++ "\x7d\x7b" ++
    ass_code ++ "\x7d" ++ text ++ "\n"

/-- `_process_normal_danmaku`: compute timing, width and speed, scan the
lanes, and either emit the scrolling `Dialogue` line for the accepted lane or
return `none` (comment dropped for capacity).  The two float divisions that
can raise (`average_speed` and the catch-up time) are `pydiv`. -/
def process_normal_danmaku (cfg : Config) (d : Danmaku) (pw : Passageway) :
    Except String (Option String × Passageway) :=
  let start_seconds := startSeconds cfg d
  let start_time := format_time start_seconds
  let end_seconds := (d.vpos : ℚ) / 100 + 16 + cfg.start_time_adjust
  let end_time := format_time end_seconds
  let text_width := textWidth cfg d
  let real_speed := realSpeed cfg d
  match pydiv ((VIDEO_WIDTH : ℚ) + (text_width : ℚ)) (real_speed / 1000) with
  | Except.error e => Except.error e
  | Except.ok average_speed =>
    match findLane cfg start_seconds text_width average_speed 0 pw.start.length pw with
    | Except.error e => Except.error e
    | Except.ok (none, pw') => Except.ok (none, pw')
    | Except.ok (some passageway_index, pw') =>
      let danmaku_line_height : Int := 64
      let sy := pyIDiv danmaku_line_height 2 + danmaku_line_height * (passageway_index : Int)
      let ey := sy
      let sx := VIDEO_WIDTH
      let ex := -text_width
      let color_ass :=
        if cfg.use_ass_colors ∧ d.mail ≠ "" then get_color_ass d.mail else "HFFFFFF"
      let alpha_ass :=
        if cfg.difficult_vip ∧ d.premium = "25" then "\\alpha&H80&" else ""
      Except.ok (some (normalDialogue start_time end_time sx sy ex ey real_speed
        color_ass alpha_ass cfg.ass_code d.text), pw')

/-- The four per-category accumulator lists of `convert_to_ass`
(`office_lines`, `shita_lines`, `aa_lines`, `normal_lines`). -/
structure Accs where
  office_lines : List String
  shita_lines : List String
  aa_lines : List String
  normal_lines : List String
deriving DecidableEq

/-- The empty accumulators. -/
def initAccs : Accs := ⟨[], [], [], []⟩

/-- The operator-time adjustment of `convert_to_ass` (lines 143-144):
`if date == 0 and date_usec == 0 and premium == '2': vpos *= 100`. -/
def rescale_office_time (d : Danmaku) : Danmaku :=
  if d.date = 0 ∧ d.date_usec = 0 ∧ d.premium = "2" then
    { d with vpos := d.vpos * 100 }
  else d

/-- The keyword filter of `convert_to_ass`:
`any(kw in text for kw in filter_keywords if kw)`. -/
def keywordFiltered (cfg : Config) (text : String) : Bool :=
  cfg.filter_keywords.any (fun kw => (!(kw == "")) && pyInB kw text)

/-- The category dispatch of the `for danmaku in self.all_danmaku` loop of
`convert_to_ass` — everything after the drop filters and the operator-time
rescale (operator / AA / bottom / membership filter / leading `/` / normal
scrolling), appending at most one rendered entry and threading the lane
state.  A processor result is appended only when truthy (not `None` and not
the empty string), matching `if office_line:` etc. -/
def dispatch (cfg : Config) (office_ids : List String) (acc : Accs) (pw : Passageway)
    (d : Danmaku) : Except String (Accs × Passageway) :=
  if d.user_id ∈ office_ids then
      match process_office_danmaku d with
      | some office_line =>
        if office_line = "" then Except.ok (acc, pw)
        else Except.ok ({ acc with office_lines := acc.office_lines ++ [office_line] }, pw)
      | none => Except.ok (acc, pw)
    else if d.text.length ≥ 70 then
      match process_aa_danmaku d with
      | some aa_line =>
        if aa_line = "" then Except.ok (acc, pw)
        else Except.ok ({ acc with aa_lines := acc.aa_lines ++ [aa_line] }, pw)
      | none => Except.ok (acc, pw)
    else if pyInB "shita" d.mail then
      let shita_line := process_shita_danmaku d
      if shita_line = "" then Except.ok (acc, pw)
      else Except.ok ({ acc with shita_lines := acc.shita_lines ++ [shita_line] }, pw)
    else if cfg.filter_outsider ∧ d.premium = "25" then Except.ok (acc, pw)
    else if pyStartsWith d.text "/" then Except.ok (acc, pw)
    else
      match process_normal_danmaku cfg d pw with
      | Except.error e => Except.error e
      | Except.ok (some normal_line, pw') =>
        if normal_line = "" then Except.ok (acc, pw')
        else Except.ok ({ acc with normal_lines := acc.normal_lines ++ [normal_line] }, pw')
      | Except.ok (none, pw') => Except.ok (acc, pw')

/-- One iteration of the `for danmaku in self.all_danmaku` loop of
`convert_to_ass`: the drop filters (empty/placeholder text, negative
`vpos`, keyword filter), then the operator-time rescale, then the category
dispatch. -/
def step (cfg : Config) (office_ids : List String) (acc : Accs) (pw : Passageway)
    (d : Danmaku) : Except String (Accs × Passageway) :=
  if d.text = "" ∨ d.text = "※ NGコメントです ※" then Except.ok (acc, pw)
  else if d.vpos < 0 then Except.ok (acc, pw)
  else if keywordFiltered cfg d.text then Except.ok (acc, pw)
  else dispatch cfg office_ids acc pw (rescale_office_time d)

/-- The whole `for danmaku in self.all_danmaku` loop. -/
def convertFold (cfg : Config) (office_ids : List String) :
    List Danmaku → Accs → Passageway → Except String (Accs × Passageway)
  | [], acc, pw => Except.ok (acc, pw)
  | d :: rest, acc, pw =>
    match step cfg office_ids acc pw d with
    | Except.error e => Except.error e
    | Except.ok (acc', pw') => convertFold cfg office_ids rest acc' pw'

/-- `_generate_ass_header`: the fixed header parameterized by
`danmaku_size` and the video dimensions. -/
def generate_ass_header (cfg : Config) : String :=
  let aa_size : Int := 20
  let office_size : Int := 20
  let danmaku_size := cfg.danmaku_size
  "[Script Info]\n" ++
  "; Script generated by NicoXML2ASS Python\n" ++
  "ScriptType: v4.00+\n" ++
  "PlayResX: " ++ toString VIDEO_WIDTH ++ "\n" ++
  "PlayResY: " ++ toString VIDEO_HEIGHT ++ "\n" ++
  "\n" ++
  "[V4+ Styles]\n" ++
  "Format: Name, Fontname, Fontsize, PrimaryColour, SecondaryColour, OutlineColour, BackColour, Bold, Italic, Underline, StrikeOut, ScaleX, ScaleY, Spacing, Angle, BorderStyle, Outline, Shadow, Alignment, MarginL, MarginR, MarginV, Encoding\n" ++
  "Style: Default,微软雅黑,54,&H00FFFFFF,&H00FFFFFF,&H00000000,&H00000000,-1,0,0,0,100,100,0,0,1,2,0,2,30,30,120,0\n" ++
  "Style: Alternate,微软雅黑,36,&H00FFFFFF,&H00FFFFFF,&H00000000,&H00000000,-1,0,0,0,100,100,0,0,1,2,0,2,30,30,84,0\n" ++
  "Style: AA,Yu Gothic," ++ toString aa_size ++ ",&H00FFFFFF,&H00FFFFFF,&H00000000,&H00000000,-1,0,0,0,100,100,0,0,1,0,2,2,30,30,84,0\n" ++
  "Style: Office,MS PGothic," ++ toString office_size ++ ",&H00FFFFFF,&H00FFFFFF,&H14000000,&H00000000,-1,0,0,0,100,100,0,0,1,2,0,2,30,30,30,0\n" ++
  "Style: Shita,MS PGothic," ++ toString danmaku_size ++ ",&H00FFFFFF,&H00FFFFFF,&H14000000,&H00000000,-1,0,0,0,100,100,0,0,1,2,0,2,30,30,0,0\n" ++
  "Style: Danmaku,MS PGothic," ++ toString danmaku_size ++ ",&H00FFFFFF,&H00FFFFFF,&H14000000,&H00000000,-1,0,0,0,100,100,0,0,1,2,0,2,30,30,30,0\n" ++
  "\n" ++
  "[Events]\n" ++
  "Format: Layer, Start, End, Style, Name, MarginL, MarginR, MarginV, Effect, Text"

/-- The block assembly at the end of `convert_to_ass`: header, then the
`Office`, `Shita` and `AA` blocks (each only when non-empty, wrapped in
marker `Comment:` lines), then all normal lines. -/
def assemble (cfg : Config) (acc : Accs) : String :=
  let result := generate_ass_header cfg ++ "\n"
  let result := result ++
    (if acc.office_lines ≠ [] then
      "Comment: 0,0:00:00.00,0:00:00.00,Office,,0,0,0,,运营弹幕\n" ++
        String.join acc.office_lines ++
        "Comment: 0,0:00:00.00,0:00:00.00,Office,,0,0,0,,\n"
    else "")
  let result := result ++
    (if acc.shita_lines ≠ [] then
      "Comment: 0,0:00:00.00,0:00:00.00,Shita,,0,0,0,,底部弹幕\n" ++
        String.join acc.shita_lines ++
        "Comment: 0,0:00:00.00,0:00:00.00,Shita,,0,0,0,,\n"
    else "")
  let result := result ++
    (if acc.aa_lines ≠ [] then
      "Comment: 0,0:00:00.00,0:00:00.00,AA,,0,0,0,,AA弹幕\n" ++
        String.join acc.aa_lines ++
        "Comment: 0,0:00:00.00,0:00:00.00,AA,,0,0,0,,\n"
    else "")
  result ++ String.join acc.normal_lines

/-- `convert_to_ass`, with the operator-ID list passed in explicitly (in the
source it is `self.office_ids`, computed by `_check_office_ids` before the
conversion).  Returns `Except` because the scheduler's float divisions can
raise. -/
def convert_to_ass (cfg : Config) (office_ids : List String) (ds : List Danmaku) :
    Except String String :=
  match convertFold cfg office_ids ds initAccs (initPassageway cfg) with
  | Except.error e => Except.error e
  | Except.ok (acc, _) => Except.ok (assemble cfg acc)

/-- The exclusion substrings of `_check_office_ids`. -/
def officeDetectSkipList : List String :=
  ["/trialpanel", "/nicoad", "/spi", "/gift", "/info", "/commentlock"]

/-- `_check_office_ids`: collect the sender IDs of `premium == '2'` comments
whose text contains none of the excluded system-command substrings, then
append the manually configured IDs.  In the source the collected IDs pass
through a Python `set`, whose enumeration order is not specified; this
definition lists them in first-occurrence order, and the determinism theorem
below shows the rendered document does not depend on that order. -/
def check_office_ids (cfg : Config) (ds : List Danmaku) : List String :=
  (ds.foldl (fun s d =>
    if d.premium == "2" && !(officeDetectSkipList.any (fun x => pyInB x d.text)) then
      (if d.user_id ∈ s then s else s ++ [d.user_id])
    else s) []) ++ cfg.manual_add_office_id

/-! ### `json2xml.py` -/

/-- The `data` object of one downloaded comment event: an absent key is
`none` at the field level, and a `data` value that is not a dictionary is
`none` at the event level (both take the defaults in the source). -/
structure JsonData where
  userName : Option String
  color : Option String
  comment : List String
deriving DecidableEq

/-- One ASOBISTAGE comment event as consumed by `convert_json_to_xml`:
`playtime` (a number, here `ℚ`; the `Decimal(str(float(…)))` round-trip is
the identity on the embedded value), `time` (a timestamp string), and the
`data` object. -/
structure JsonComment where
  playtime : Option ℚ
  time : Option String
  data : Option JsonData
deriving DecidableEq

/-- `Decimal.quantize(Decimal('0'), rounding=ROUND_HALF_UP)`: round to the
nearest integer, ties away from zero. -/
def roundHalfUp (q : ℚ) : Int :=
  if q < 0 then -(Int.floor (-q + 1/2)) else Int.floor (q + 1/2)

/-- `xml_escape` of `json2xml.py`.  The final
`replace("　", "　")` of the source maps the ideographic space to
itself and is kept as written. -/
def xml_escape (text : String) : String :=
  pyReplace (pyReplace (pyReplace (pyReplace (pyReplace (pyReplace text
    "&" "&amp;") "<" "&lt;") ">" "&gt;") "\"" "&quot;") "\x27" "&apos;") "　" "　"

/-- The timestamp handling of `convert_json_to_xml` (lines 37-48): the
`date`/`date_usec` attribute values for one comment.  `parse` stands for the
`datetime.strptime('%Y-%m-%d %H:%M:%S.%f')` + `timestamp()` + `strftime('%f')`
combination — an external, possibly failing parser returning the unix
timestamp and the microsecond string; on failure (the caught `ValueError`)
the `"0"`/`"0"` defaults survive.  A falsy (absent or empty) `time` value
skips parsing entirely, as `if time_value_str:` does. -/
def jsonDateFields (parse : String → Option (Int × String)) (c : JsonComment) :
    String × String :=
  match c.time with
  | none => ("0", "0")
  | some t =>
    if t = "" then ("0", "0")
    else
      match parse (pySlice t 0 26) with
      | some du => (toString du.fst, du.snd)
      | none => ("0", "0")

/-- One `<chat …>…</chat>` line of `convert_json_to_xml`, for comment number
`no` (1-based). -/
def jsonChatLine (parse : String → Option (Int × String)) (no : Nat) (c : JsonComment) :
    String :=
  let vpos_str :=
    match c.playtime with
    | none => "0"
    | some p => toString (roundHalfUp (p * 100))
  let df := jsonDateFields parse c
  let fields :=
    match c.data with
    | none => ("anonymous", "#FFFFFF", "")
    | some data =>
      let raw_user_name := data.userName.getD "anonymous"
      let user_name_escaped := xml_escape raw_user_name
      let user_color_str := data.color.getD "#FFFFFF"
      let user_color_str :=
        if !(pyStartsWith user_color_str "#") then "#FFFFFF" else user_color_str
      let comment_text_escaped :=
        match data.comment with
        | [] => ""
        | c0 :: _ => xml_escape c0
      (user_name_escaped, user_color_str, comment_text_escaped)
  "<chat no=\"" ++ toString no ++ "\" vpos=\"" ++ vpos_str ++ "\" date=\"" ++ df.fst ++
    "\" mail=\"184\" user_id=\"\" user_name=\"" ++ fields.fst ++ "\" user_color=\"" ++
    fields.snd.fst ++ "\" anonymity=\"1\" date_usec=\"" ++ df.snd ++ "\">" ++
    fields.snd.snd ++ "</chat>\n"

/-- The comment loop of `convert_json_to_xml`, carrying the running
`xml_comment_number` (incremented before each line, so the first line is
numbered 1). -/
def jsonChatLinesAux (parse : String → Option (Int × String)) :
    Nat → List JsonComment → List String
  | _, [] => []
  | n, c :: rest => jsonChatLine parse (n + 1) c :: jsonChatLinesAux parse (n + 1) rest

/-- All `<chat>` lines of `convert_json_to_xml`. -/
def jsonChatLines (parse : String → Option (Int × String)) (comments : List JsonComment) :
    List String :=
  jsonChatLinesAux parse 0 comments

/-- `convert_json_to_xml`: the whole XML document written by the source
(header, one `<chat>` line per comment, footer). -/
def convert_json_to_xml (parse : String → Option (Int × String))
    (comments : List JsonComment) : String :=
  "<?xml version=\"1.0\" encoding=\"UTF-8\"?>\n<packet>\n" ++
    String.join (jsonChatLines parse comments) ++ "</packet>\n"

/-! ### Statement-side definitions

Definitions used only to state the claims: the spec's gap/catch-up
acceptance rule, the speed value as a pure quantity, and extractors keeping
counterexample statements closed. -/

/-- The value `average_speed = (VIDEO_WIDTH + text_width) / (real_speed / 1000)`
as a pure quantity (the scheduler computes it through `pydiv`; when that does
not raise, it yields exactly this value). -/
def averageSpeed (cfg : Config) (d : Danmaku) : ℚ :=
  ((VIDEO_WIDTH : ℚ) + (textWidth cfg d : ℚ)) / (realSpeed cfg d / 1000)

/-- The gap `(newStartTime − occupantStartTime) × occupantSpeed + laneDensity`
of lane `i` against a candidate starting at `newStart`. -/
def gapDist (cfg : Config) (newStart : ℚ) (pw : Passageway) (i : Nat) : ℚ :=
  (newStart - pw.start.getD i 0) * pw.speed.getD i 0 + (cfg.danmaku_density : ℚ)

/-- The catch-up time `(gap − occupantWidth) / (newSpeed − occupantSpeed)`. -/
def catchTime (cfg : Config) (newStart newSpeed : ℚ) (pw : Passageway) (i : Nat) : ℚ :=
  (gapDist cfg newStart pw i - (pw.width.getD i 0 : ℚ)) / (newSpeed - pw.speed.getD i 0)

/-- The gap/catch-up acceptance rule of the specification (§4.2 and the lane
safety property): a candidate `(newStart, newWidth, newSpeed)` may join
occupied lane `i` only if the gap has cleared the occupant's width and either
the occupant is at least as wide, or the catch-up time is positive (the
speeds differing so it is defined) and exceeds the occupant's remaining
on-screen time. -/
def acceptRule (cfg : Config) (newStart : ℚ) (newWidth : Int) (newSpeed : ℚ)
    (pw : Passageway) (i : Nat) : Prop :=
  gapDist cfg newStart pw i ≥ (pw.width.getD i 0 : ℚ) ∧
    (pw.width.getD i 0 ≥ newWidth ∨
      (newSpeed ≠ pw.speed.getD i 0 ∧
        catchTime cfg newStart newSpeed pw i > 0 ∧
        pw.finish.getD i 0 - (newStart - pw.start.getD i 0) <
          catchTime cfg newStart newSpeed pw i))

instance (cfg : Config) (newStart : ℚ) (newWidth : Int) (newSpeed : ℚ)
    (pw : Passageway) (i : Nat) :
    Decidable (acceptRule cfg newStart newWidth newSpeed pw i) := by
  unfold acceptRule
  infer_instance

/-- Whether a scheduler run emitted a Normal directive. -/
def emittedNormal (r : Except String (Option String × Passageway)) : Bool :=
  match r with
  | Except.ok (some _, _) => true
  | _ => false

/-- The lane state after a scheduler run (dummy on an exception). -/
def pwAfter (r : Except String (Option String × Passageway)) : Passageway :=
  match r with
  | Except.ok (_, pw) => pw
  | Except.error _ => ⟨[], [], [], []⟩

/-- The lane index found by a `findLane` scan (`none` on drop or exception). -/
def laneFound (r : Except String (Option Nat × Passageway)) : Option Nat :=
  match r with
  | Except.ok (idx, _) => idx
  | Except.error _ => none

/-- Whether an `Except`-valued pipeline run raised. -/
def raised {α : Type} (r : Except String α) : Bool :=
  match r with
  | Except.error _ => true
  | Except.ok _ => false

/-- Concrete configuration with a single lane (all other options at their
source defaults). -/
def cexConfig : Config := { limit_line_amount := 1 }

/-- A 10-character comment at `vpos = 0` (start time 0 s); width
`10 × 48 = 480`, speed `1760/7 px/s` under the default configuration. -/
def cexD1 : Danmaku := ⟨"aaaaaaaaaa", 0, "u", "1", "", 1, 1⟩

/-- The same text at `vpos = 100` (start time 1 s). -/
def cexD2 : Danmaku := ⟨"aaaaaaaaaa", 100, "u", "1", "", 1, 1⟩

/-- The same text at `vpos = 1` (start time 0.01 s). -/
def cexD3 : Danmaku := ⟨"aaaaaaaaaa", 1, "u", "1", "", 1, 1⟩

/-- The 10-character comment of `cexD2` at `vpos = 200` (start time 2 s). -/
def cexD4 : Danmaku := ⟨"aaaaaaaaaa", 200, "u", "1", "", 1, 1⟩

/-- An occupied single-lane state: occupant start 1 s, width 480 px, speed
`1760/7` px/s, finish time `56/11` s. -/
def pwOcc : Passageway := ⟨[1], [480], [1760/7], [56/11]⟩

/-- Configuration with `speedAdjust = −6`, making the base speed
`6000 + 1000×(−6)` exactly zero. -/
def cexConfigNeg : Config := { danmaku_speed_adjust := -6 }

/-- A minimal normal comment. -/
def cexD5 : Danmaku := ⟨"a", 0, "u", "0", "", 1, 1⟩

/-- A comment from a manually-added operator ID with membership tier "1" and
both raw timestamp fields zero. -/
def cexOffice : Danmaku := ⟨"hello", 5, "op", "1", "", 0, 0⟩

/-- The accumulators after a pipeline step (dummy on an exception). -/
def accsAfter (r : Except String (Accs × Passageway)) : Accs :=
  match r with
  | Except.ok (acc, _) => acc
  | Except.error _ => initAccs

/-- The directive emitted by a scheduler run (empty on drop or exception). -/
def lineOf (r : Except String (Option String × Passageway)) : String :=
  match r with
  | Except.ok (some l, _) => l
  | _ => ""

/-- Configuration with `colorEnabled` (`use_ass_colors`) off. -/
def cexConfigNoColor : Config := { use_ass_colors := false }

/-- A bottom-pinned comment whose style token names the color red. -/
def cexShita : Danmaku := ⟨"hi", 0, "u", "0", "shita red", 1, 1⟩

/-- An operator `/vote` command comment. -/
def cexVote : Danmaku := ⟨"/vote start q", 0, "op", "2", "", 1, 1⟩

/-- The `(accumulators, lane state)` pair of a pipeline step (dummy on an
exception). -/
def stepResult (r : Except String (Accs × Passageway)) : Accs × Passageway :=
  match r with
  | Except.ok p => p
  | Except.error _ => (initAccs, ⟨[], [], [], []⟩)

/-- The color contribution of one space-separated style-token part: an
explicit 7-character `#RRGGBB` part (checked first), else the digit-stripped
CSS name lookup, else nothing; matches re-ordered to ASS `HBBGGRR`. -/
def part_color (p : String) : Option String :=
  if pyStartsWith p "#" = true ∧ p.length = 7 then some (hexToAss p)
  else (css2assLookup (stripDigits p)).map hexToAss

/-- The color derivation in per-part first-match form (the amended reading
of C7): scan the space-separated parts left to right; the first part
matching either form decides; default white. -/
def color_amended (mail : String) : String :=
  if mail = "" then "HFFFFFF"
  else ((pySplitOn mail " ").findSome? part_color).getD "HFFFFFF"

/-- A parser that fails on every timestamp string. -/
def parseNone : String → Option (Int × String) := fun _ => none

/-- A comment event whose timestamp string is unparsable. -/
def cexJsonBad : JsonComment :=
  ⟨some 1, some "garbage", some ⟨some "u", some "#FF0000", ["hi"]⟩⟩

/-- A comment event with every optional field absent. -/
def cexJsonGood : JsonComment := ⟨none, none, none⟩

/-- Modelled from the claim's words (C7): first check the whole token for an
explicit hex color part (which, when present anywhere, is used), only then
look up a named color anywhere in the token, else white. -/
def color_claimed (mail : String) : String :=
  match (pySplitOn mail " ").findSome?
      (fun p => if pyStartsWith p "#" = true ∧ p.length = 7 then some (hexToAss p)
        else none) with
  | some c => c
  | none =>
    match (pySplitOn mail " ").findSome?
        (fun p => (css2assLookup (stripDigits p)).map hexToAss) with
    | some c => c
    | none => "HFFFFFF"

/-- The speed bookkeeping invariant of the lane state: each lane's recorded
speed is the `average_speed` computed (with the heuristic off) from its
recorded width, or the lane still holds its initial zeros.  Holds for every
state reachable from the initial state when `use_speed_a` is off, and makes
the catch-up denominator nonzero. -/
def SpeedInv (cfg : Config) (pw : Passageway) : Prop :=
  pw.width.length = pw.speed.length ∧
  ∀ i : Nat, pw.speed.getD i 0 =
      ((VIDEO_WIDTH : ℚ) + (pw.width.getD i 0 : ℚ)) * 1000 /
        (6000 + 1000 * cfg.danmaku_speed_adjust) ∨
    (pw.width.getD i 0 = 0 ∧ pw.speed.getD i 0 = 0)

/-! ### Shared lemmas -/

theorem pydiv_ok {a b c : ℚ} (h : pydiv a b = Except.ok c) : b ≠ 0 ∧ c = a / b := by
  unfold pydiv at h
  by_cases hz : b = 0
  · simp [hz] at h
  · simp [hz] at h
    exact ⟨hz, h.symm⟩

theorem acceptInto_ok {pw : Passageway} {i : Nat} {ss : ℚ} {tw : Int} {avg : ℚ}
    {res : Option Nat} {pw' : Passageway}
    (h : acceptInto pw i ss tw avg = Except.ok (res, pw')) :
    res = some i ∧ avg ≠ 0 ∧
      pw' = writeLane pw i ss tw avg ((VIDEO_WIDTH : ℚ) / avg) := by
  unfold acceptInto pydiv at h
  by_cases hz : avg = 0
  · simp [hz] at h
  · simp [hz] at h
    exact ⟨h.1.symm, hz, h.2.symm⟩

/-- Inversion of the lane scan: on a normal return the state is untouched
with no lane found, or the found lane `j` lies in the scanned range, the
state is exactly lane `j` overwritten, and — if lane `j` was occupied (its
recorded start nonzero) — the gap/catch-up acceptance rule held for it. -/
theorem findLane_inv (cfg : Config) (ss : ℚ) (tw : Int) (avg : ℚ) :
    ∀ (remaining i : Nat) (pw pw' : Passageway) (res : Option Nat),
    findLane cfg ss tw avg i remaining pw = Except.ok (res, pw') →
    (res = none ∧ pw' = pw) ∨
      (∃ j, res = some j ∧ i ≤ j ∧ j < i + remaining ∧ avg ≠ 0 ∧
        pw' = writeLane pw j ss tw avg ((VIDEO_WIDTH : ℚ) / avg) ∧
        (pw.start.getD j 0 ≠ 0 → acceptRule cfg ss tw avg pw j)) := by
  intro remaining
  induction remaining with
  | zero =>
    intro i pw pw' res h
    simp only [findLane] at h
    rw [Except.ok.injEq, Prod.mk.injEq] at h
    exact Or.inl ⟨h.1.symm, h.2.symm⟩
  | succ n ih =>
    intro i pw pw' res h
    rw [findLane] at h
    by_cases h0 : pw.start.getD i 0 = 0
    · rw [if_pos h0] at h
      obtain ⟨hr, hz, hw⟩ := acceptInto_ok h
      exact Or.inr ⟨i, hr, Nat.le_refl i, by omega, hz, hw, fun hc => absurd h0 hc⟩
    · rw [if_neg h0] at h
      simp only at h
      by_cases h1 : (ss - pw.start.getD i 0) * pw.speed.getD i 0 +
          (cfg.danmaku_density : ℚ) ≥ (pw.width.getD i 0 : ℚ)
      · rw [if_pos h1] at h
        by_cases h2 : pw.width.getD i 0 ≥ tw
        · rw [if_pos h2] at h
          obtain ⟨hr, hz, hw⟩ := acceptInto_ok h
          refine Or.inr ⟨i, hr, Nat.le_refl i, by omega, hz, hw, fun _ => ⟨h1, Or.inl h2⟩⟩
        · rw [if_neg h2] at h
          rcases hdiv : pydiv ((ss - pw.start.getD i 0) * pw.speed.getD i 0 +
              (cfg.danmaku_density : ℚ) - (pw.width.getD i 0 : ℚ))
              (avg - pw.speed.getD i 0) with e | catch_time
          · rw [hdiv] at h
            exact absurd h (by simp)
          · rw [hdiv] at h
            dsimp only at h
            obtain ⟨hden, hct⟩ := pydiv_ok hdiv
            by_cases h3 : catch_time > 0 ∧
                pw.finish.getD i 0 - (ss - pw.start.getD i 0) < catch_time
            · rw [if_pos h3] at h
              obtain ⟨hr, hz, hw⟩ := acceptInto_ok h
              refine Or.inr ⟨i, hr, Nat.le_refl i, by omega, hz, hw, fun _ => ?_⟩
              refine ⟨h1, Or.inr ⟨fun hsp => hden (by rw [hsp]; ring), ?_, ?_⟩⟩
              · have : catchTime cfg ss avg pw i = catch_time := by
                  rw [hct]; unfold catchTime gapDist; ring_nf
                rw [this]; exact h3.1
              · have : catchTime cfg ss avg pw i = catch_time := by
                  rw [hct]; unfold catchTime gapDist; ring_nf
                rw [this]; exact h3.2
            · rw [if_neg h3] at h
              rcases ih (i + 1) pw pw' res h with hl | ⟨j, hj⟩
              · exact Or.inl hl
              · exact Or.inr ⟨j, hj.1, by omega, by omega, hj.2.2.2⟩
      · rw [if_neg h1] at h
        rcases ih (i + 1) pw pw' res h with hl | ⟨j, hj⟩
        · exact Or.inl hl
        · exact Or.inr ⟨j, hj.1, by omega, by omega, hj.2.2.2⟩

/-! ### Claims -/

attribute [local semireducible] Rat.add Rat.sub Rat.mul Rat.inv

/-- **C1** (counterexample).  The lane-safety invariant fails as stated: a
Normal comment accepted at start time exactly 0 stores start time `0` into
its lane, which is indistinguishable from the "never occupied" sentinel, so
the next comment (0.01 s later, far too close for the gap rule) is accepted
into the same lane 0 by the free-lane branch even though the gap/catch-up
acceptance rule is violated at its assignment time. -/
theorem C1_cex :
    emittedNormal (process_normal_danmaku cexConfig cexD1 (initPassageway cexConfig)) = true ∧
    emittedNormal (process_normal_danmaku cexConfig cexD3
      (pwAfter (process_normal_danmaku cexConfig cexD1 (initPassageway cexConfig)))) = true ∧
    laneFound (findLane cexConfig (startSeconds cexConfig cexD1) (textWidth cexConfig cexD1)
      (averageSpeed cexConfig cexD1) 0 1 (initPassageway cexConfig)) = some 0 ∧
    laneFound (findLane cexConfig (startSeconds cexConfig cexD3) (textWidth cexConfig cexD3)
      (averageSpeed cexConfig cexD3) 0 1
      (pwAfter (process_normal_danmaku cexConfig cexD1 (initPassageway cexConfig)))) = some 0 ∧
    ¬ acceptRule cexConfig (startSeconds cexConfig cexD3) (textWidth cexConfig cexD3)
      (averageSpeed cexConfig cexD3)
      (pwAfter (process_normal_danmaku cexConfig cexD1 (initPassageway cexConfig))) 0 := by
  decide

/-- **C1** (amended).  Lane safety as the scheduler actually guarantees it:
whenever the lane scan assigns a Normal comment to a lane whose recorded
occupant start time is nonzero, the gap/catch-up acceptance rule holds for
that lane at assignment time.  (A lane whose recorded start time is exactly
0 — never occupied, or occupied by a comment whose start time was 0 — is
instead taken by the free-lane branch with no rule check.) -/
theorem C1_occupied_accept_rule {cfg : Config} {ss : ℚ} {tw : Int} {avg : ℚ}
    {remaining i j : Nat} {pw pw' : Passageway}
    (h : findLane cfg ss tw avg i remaining pw = Except.ok (some j, pw'))
    (hocc : pw.start.getD j 0 ≠ 0) :
    acceptRule cfg ss tw avg pw j := by
  rcases findLane_inv cfg ss tw avg remaining i pw pw' (some j) h with ⟨hnone, _⟩ | ⟨k, hk⟩
  · exact absurd hnone (by simp)
  · have : k = j := by
      have := hk.1
      simp only [Option.some.injEq] at this
      exact this.symm
    subst this
    exact hk.2.2.2.2.2 hocc

/-- **C1** (witness).  A concrete occupied-lane acceptance: a 480 px
candidate at 10 s joins `pwOcc` (occupant start 1 ≠ 0), and the theorem
yields the acceptance rule for it. -/
theorem C1_occupied_accept_rule_witness :
    pwOcc.start.getD 0 0 ≠ 0 ∧
    acceptRule cexConfig 10 480 (1760/7) pwOcc 0 :=
  ⟨by decide, @C1_occupied_accept_rule cexConfig 10 480 (1760/7) 1 0 0 pwOcc
    (writeLane pwOcc 0 10 480 (1760/7) ((VIDEO_WIDTH : ℚ) / (1760/7)))
    (by rfl) (by decide)⟩

theorem pydiv_eq_ok {a b : ℚ} (hb : b ≠ 0) : pydiv a b = Except.ok (a / b) := by
  simp [pydiv, hb]

theorem findLane_zero (cfg : Config) (ss : ℚ) (tw : Int) (avg : ℚ) (i : Nat)
    (pw : Passageway) : findLane cfg ss tw avg i 0 pw = Except.ok (none, pw) := by
  simp [findLane]

theorem findLane_free {cfg : Config} {ss : ℚ} {tw : Int} {avg : ℚ} {i r : Nat}
    {pw : Passageway} (h0 : pw.start.getD i 0 = 0) (hz : avg ≠ 0) :
    findLane cfg ss tw avg i (r + 1) pw =
      Except.ok (some i, writeLane pw i ss tw avg ((VIDEO_WIDTH : ℚ) / avg)) := by
  rw [findLane, if_pos h0]
  simp [acceptInto, pydiv, hz]

theorem findLane_occupied_wide {cfg : Config} {ss : ℚ} {tw : Int} {avg : ℚ} {i r : Nat}
    {pw : Passageway} (h0 : pw.start.getD i 0 ≠ 0)
    (h1 : (ss - pw.start.getD i 0) * pw.speed.getD i 0 + (cfg.danmaku_density : ℚ) ≥
      (pw.width.getD i 0 : ℚ))
    (h2 : pw.width.getD i 0 ≥ tw) (hz : avg ≠ 0) :
    findLane cfg ss tw avg i (r + 1) pw =
      Except.ok (some i, writeLane pw i ss tw avg ((VIDEO_WIDTH : ℚ) / avg)) := by
  rw [findLane, if_neg h0]
  simp only
  rw [if_pos h1, if_pos h2]
  simp [acceptInto, pydiv, hz]

theorem findLane_occupied_blocked {cfg : Config} {ss : ℚ} {tw : Int} {avg : ℚ} {i r : Nat}
    {pw : Passageway} (h0 : pw.start.getD i 0 ≠ 0)
    (h1 : ¬ ((ss - pw.start.getD i 0) * pw.speed.getD i 0 + (cfg.danmaku_density : ℚ) ≥
      (pw.width.getD i 0 : ℚ))) :
    findLane cfg ss tw avg i (r + 1) pw = findLane cfg ss tw avg (i + 1) r pw := by
  rw [findLane, if_neg h0]
  simp only
  rw [if_neg h1]

theorem process_normal_some {cfg : Config} {d : Danmaku} {pw pw' : Passageway} {j : Nat}
    (hrs : realSpeed cfg d ≠ 0)
    (hfl : findLane cfg (startSeconds cfg d) (textWidth cfg d) (averageSpeed cfg d) 0
      pw.start.length pw = Except.ok (some j, pw')) :
    ∃ line, process_normal_danmaku cfg d pw = Except.ok (some line, pw') := by
  unfold process_normal_danmaku
  dsimp only
  rw [pydiv_eq_ok (div_ne_zero hrs (by norm_num))]
  rw [show ((VIDEO_WIDTH : ℚ) + (textWidth cfg d : ℚ)) / (realSpeed cfg d / 1000) =
    averageSpeed cfg d from rfl]
  dsimp only
  rw [hfl]
  exact ⟨_, rfl⟩

theorem process_normal_none {cfg : Config} {d : Danmaku} {pw pw' : Passageway}
    (hrs : realSpeed cfg d ≠ 0)
    (hfl : findLane cfg (startSeconds cfg d) (textWidth cfg d) (averageSpeed cfg d) 0
      pw.start.length pw = Except.ok (none, pw')) :
    process_normal_danmaku cfg d pw = Except.ok (none, pw') := by
  unfold process_normal_danmaku
  dsimp only
  rw [pydiv_eq_ok (div_ne_zero hrs (by norm_num))]
  rw [show ((VIDEO_WIDTH : ℚ) + (textWidth cfg d : ℚ)) / (realSpeed cfg d / 1000) =
    averageSpeed cfg d from rfl]
  dsimp only
  rw [hfl]

theorem calc_text_length_foldl (l : List Char) (acc : Int) :
    l.foldl (fun length c => if c.toNat > 127 then length + 2 else length + 2) acc =
      acc + 2 * l.length := by
  induction l generalizing acc with
  | nil => simp
  | cons c rest ih =>
    rw [List.foldl_cons, ite_self, ih, List.length_cons]
    push_cast
    ring

theorem calc_text_length_eq (t : String) :
    calc_text_length t = (t.toList.length : Int) := by
  unfold calc_text_length
  rw [calc_text_length_foldl]
  omega

theorem realSpeed_noheur {cfg : Config} (h : cfg.use_speed_a = false) (d : Danmaku) :
    realSpeed cfg d = 6000 + 1000 * cfg.danmaku_speed_adjust := by
  simp [realSpeed, h]

theorem textWidth_nonneg {cfg : Config} (hsize : 0 ≤ cfg.danmaku_size + 2) (d : Danmaku) :
    0 ≤ textWidth cfg d := by
  unfold textWidth
  rw [calc_text_length_eq]
  exact mul_nonneg (by positivity) hsize

theorem averageSpeed_ne_zero {cfg : Config} {d : Danmaku}
    (hrs : realSpeed cfg d ≠ 0) (hsize : 0 ≤ cfg.danmaku_size + 2) :
    averageSpeed cfg d ≠ 0 := by
  unfold averageSpeed
  apply div_ne_zero
  · have := textWidth_nonneg hsize d
    have : (0:ℚ) ≤ (textWidth cfg d : ℚ) := by exact_mod_cast this
    norm_num [VIDEO_WIDTH]
    linarith
  · exact div_ne_zero hrs (by norm_num)

/-- **C2** (counterexample).  The capacity-drop property fails as literally
stated (start times 0 and 1): the first comment, at start time 0, stores `0`
into the lane, re-arming the "never occupied" sentinel, so the second
comment is accepted by the free-lane branch even though
`(1 × occupantSpeed) + laneDensity < occupantWidth` (1760/7 + 10 < 480)
says it should be dropped. -/
theorem C2_cex :
    (pwAfter (process_normal_danmaku cexConfig cexD1 (initPassageway cexConfig))).speed.getD 0 0
        * 1 + (cexConfig.danmaku_density : ℚ) < (textWidth cexConfig cexD2 : ℚ) ∧
    textWidth cexConfig cexD1 = textWidth cexConfig cexD2 ∧
    startSeconds cexConfig cexD1 = 0 ∧ startSeconds cexConfig cexD2 = 1 ∧
    emittedNormal (process_normal_danmaku cexConfig cexD1 (initPassageway cexConfig)) = true ∧
    emittedNormal (process_normal_danmaku cexConfig cexD2
      (pwAfter (process_normal_danmaku cexConfig cexD1 (initPassageway cexConfig)))) = true := by
  decide

/-- **C2** (amended).  Capacity drop with one lane, for two equal-width
Normal comments at start times `s` and `s+1` where `s ≠ 0` (so the first
comment does not re-arm the free-lane sentinel), under a nonzero base speed,
nonnegative glyph width and the speed heuristic off: the first comment takes
lane 0; then if `(1 × occupantSpeed) + laneDensity < occupantWidth` the
second is dropped, and otherwise it is accepted into the same lane 0. -/
theorem C2_capacity {cfg : Config} {d1 d2 : Danmaku}
    (hlanes : cfg.limit_line_amount = 1)
    (hheur : cfg.use_speed_a = false)
    (hrs : (6000 : ℚ) + 1000 * cfg.danmaku_speed_adjust ≠ 0)
    (hsize : 0 ≤ cfg.danmaku_size + 2)
    (hwidth : textWidth cfg d1 = textWidth cfg d2)
    (ht : startSeconds cfg d2 = startSeconds cfg d1 + 1)
    (hnz : startSeconds cfg d1 ≠ 0) :
    ∃ l1 pw1, process_normal_danmaku cfg d1 (initPassageway cfg) = Except.ok (some l1, pw1) ∧
      pw1.start.getD 0 0 = startSeconds cfg d1 ∧
      pw1.speed.getD 0 0 = averageSpeed cfg d1 ∧
      ((pw1.speed.getD 0 0 * 1 + (cfg.danmaku_density : ℚ) < (textWidth cfg d2 : ℚ) →
        process_normal_danmaku cfg d2 pw1 = Except.ok (none, pw1)) ∧
       ((textWidth cfg d2 : ℚ) ≤ pw1.speed.getD 0 0 * 1 + (cfg.danmaku_density : ℚ) →
        ∃ l2 pw2, process_normal_danmaku cfg d2 pw1 = Except.ok (some l2, pw2) ∧
          pw2.start.getD 0 0 = startSeconds cfg d2)) := by
  have hrs1 : realSpeed cfg d1 ≠ 0 := by rw [realSpeed_noheur hheur]; exact hrs
  have hrs2 : realSpeed cfg d2 ≠ 0 := by rw [realSpeed_noheur hheur]; exact hrs
  have havg1 : averageSpeed cfg d1 ≠ 0 := averageSpeed_ne_zero hrs1 hsize
  have havgeq : averageSpeed cfg d2 = averageSpeed cfg d1 := by
    unfold averageSpeed
    rw [realSpeed_noheur hheur d1, realSpeed_noheur hheur d2, hwidth]
  have hlen : (initPassageway cfg).start.length = 1 := by
    simp [initPassageway, hlanes]
  have hfree : (initPassageway cfg).start.getD 0 0 = 0 := by
    simp [initPassageway, hlanes]
  have hfl1 : findLane cfg (startSeconds cfg d1) (textWidth cfg d1) (averageSpeed cfg d1) 0
      (initPassageway cfg).start.length (initPassageway cfg) =
      Except.ok (some 0, writeLane (initPassageway cfg) 0 (startSeconds cfg d1)
        (textWidth cfg d1) (averageSpeed cfg d1) ((VIDEO_WIDTH : ℚ) / averageSpeed cfg d1)) := by
    rw [hlen]
    exact findLane_free hfree havg1
  obtain ⟨l1, hl1⟩ := process_normal_some hrs1 hfl1
  set pw1 := writeLane (initPassageway cfg) 0 (startSeconds cfg d1) (textWidth cfg d1)
    (averageSpeed cfg d1) ((VIDEO_WIDTH : ℚ) / averageSpeed cfg d1) with hpw1
  have hstart1 : pw1.start = [startSeconds cfg d1] := by
    simp [hpw1, writeLane, initPassageway, hlanes]
  have hwidth1 : pw1.width = [textWidth cfg d1] := by
    simp [hpw1, writeLane, initPassageway, hlanes]
  have hspeed1 : pw1.speed = [averageSpeed cfg d1] := by
    simp [hpw1, writeLane, initPassageway, hlanes]
  have hpw1start : pw1.start.getD 0 0 = startSeconds cfg d1 := by rw [hstart1]; rfl
  have hpw1width : pw1.width.getD 0 0 = textWidth cfg d1 := by rw [hwidth1]; rfl
  have hpw1speed : pw1.speed.getD 0 0 = averageSpeed cfg d1 := by rw [hspeed1]; rfl
  have hpw1len : pw1.start.length = 1 := by rw [hstart1]; rfl
  have hocc : pw1.start.getD 0 0 ≠ 0 := by rw [hpw1start]; exact hnz
  refine ⟨l1, pw1, hl1, hpw1start, hpw1speed, ?_, ?_⟩
  · intro hlt
    rw [hpw1speed] at hlt
    have hrange : ¬ ((startSeconds cfg d2 - pw1.start.getD 0 0) * pw1.speed.getD 0 0 +
        (cfg.danmaku_density : ℚ) ≥ (pw1.width.getD 0 0 : ℚ)) := by
      rw [hpw1start, hpw1speed, hpw1width, ht, hwidth]
      intro hcon
      nlinarith
    have hfl2 : findLane cfg (startSeconds cfg d2) (textWidth cfg d2) (averageSpeed cfg d2) 0
        pw1.start.length pw1 = Except.ok (none, pw1) := by
      rw [hpw1len]
      rw [findLane_occupied_blocked hocc hrange]
      exact findLane_zero cfg _ _ _ 1 pw1
    exact process_normal_none hrs2 hfl2
  · intro hge
    rw [hpw1speed] at hge
    have hrange : (startSeconds cfg d2 - pw1.start.getD 0 0) * pw1.speed.getD 0 0 +
        (cfg.danmaku_density : ℚ) ≥ (pw1.width.getD 0 0 : ℚ) := by
      rw [hpw1start, hpw1speed, hpw1width, ht, hwidth]
      nlinarith
    have hwide : pw1.width.getD 0 0 ≥ textWidth cfg d2 := by
      rw [hpw1width, hwidth]
    have havg2 : averageSpeed cfg d2 ≠ 0 := by rw [havgeq]; exact havg1
    have hfl2 : findLane cfg (startSeconds cfg d2) (textWidth cfg d2) (averageSpeed cfg d2) 0
        pw1.start.length pw1 = Except.ok (some 0, writeLane pw1 0 (startSeconds cfg d2)
          (textWidth cfg d2) (averageSpeed cfg d2) ((VIDEO_WIDTH : ℚ) / averageSpeed cfg d2)) := by
      rw [hpw1len]
      exact findLane_occupied_wide hocc hrange hwide havg2
    obtain ⟨l2, hl2⟩ := process_normal_some hrs2 hfl2
    refine ⟨l2, _, hl2, ?_⟩
    simp [writeLane, hstart1]

/-- **C2** (witness).  The amended capacity-drop theorem applied to the
concrete one-lane configuration and the comments at 1 s and 2 s. -/
theorem C2_capacity_witness :
    cexConfig.limit_line_amount = 1 ∧
    cexConfig.use_speed_a = false ∧
    textWidth cexConfig cexD2 = textWidth cexConfig cexD4 ∧
    startSeconds cexConfig cexD4 = startSeconds cexConfig cexD2 + 1 ∧
    startSeconds cexConfig cexD2 ≠ 0 ∧
    (∃ l1 pw1,
      process_normal_danmaku cexConfig cexD2 (initPassageway cexConfig) =
        Except.ok (some l1, pw1) ∧
      pw1.start.getD 0 0 = startSeconds cexConfig cexD2 ∧
      pw1.speed.getD 0 0 = averageSpeed cexConfig cexD2 ∧
      ((pw1.speed.getD 0 0 * 1 + (cexConfig.danmaku_density : ℚ) <
          (textWidth cexConfig cexD4 : ℚ) →
        process_normal_danmaku cexConfig cexD4 pw1 = Except.ok (none, pw1)) ∧
       ((textWidth cexConfig cexD4 : ℚ) ≤
          pw1.speed.getD 0 0 * 1 + (cexConfig.danmaku_density : ℚ) →
        ∃ l2 pw2, process_normal_danmaku cexConfig cexD4 pw1 = Except.ok (some l2, pw2) ∧
          pw2.start.getD 0 0 = startSeconds cexConfig cexD4))) :=
  ⟨rfl, rfl, by decide, by decide, by decide,
    C2_capacity rfl rfl (by decide) (by decide) (by decide) (by decide) (by decide)⟩

theorem getD_set_self {α : Type} :
    ∀ (l : List α) (i : Nat) (x d : α), i < l.length → (l.set i x).getD i d = x
  | a :: l, 0, x, d, _ => rfl
  | a :: l, i + 1, x, d, h => getD_set_self l i x d (by simpa using h)
  | [], i, x, d, h => absurd h (by simp)

theorem getD_set_out {α : Type} :
    ∀ (l : List α) (i : Nat) (x d : α), ¬ i < l.length → (l.set i x).getD i d = l.getD i d := by
  intro l i x d h
  rw [List.set_eq_of_length_le (by omega)]

theorem getD_set_ne {α : Type} :
    ∀ (l : List α) (i j : Nat) (x d : α), i ≠ j → (l.set i x).getD j d = l.getD j d
  | [], _, _, _, _, _ => rfl
  | a :: l, 0, 0, x, d, h => absurd rfl h
  | a :: l, 0, j + 1, x, d, _ => rfl
  | a :: l, i + 1, 0, x, d, _ => rfl
  | a :: l, i + 1, j + 1, x, d, h =>
    getD_set_ne l i j x d (by omega)

theorem getD_replicate {α : Type} (x : α) :
    ∀ (n i : Nat), (List.replicate n x).getD i x = x
  | 0, _ => rfl
  | _ + 1, 0 => rfl
  | n + 1, i + 1 => getD_replicate x n i

theorem SpeedInv_init (cfg : Config) : SpeedInv cfg (initPassageway cfg) := by
  constructor
  · simp [initPassageway]
  · intro i
    right
    constructor
    · exact getD_replicate 0 cfg.limit_line_amount i
    · exact getD_replicate 0 cfg.limit_line_amount i

theorem SpeedInv_writeLane {cfg : Config} {pw : Passageway} (h : SpeedInv cfg pw)
    {j : Nat} {ss : ℚ} {tw : Int} {avg fin : ℚ}
    (havg : avg = ((VIDEO_WIDTH : ℚ) + (tw : ℚ)) * 1000 /
      (6000 + 1000 * cfg.danmaku_speed_adjust)) :
    SpeedInv cfg (writeLane pw j ss tw avg fin) := by
  obtain ⟨hlen, h⟩ := h
  constructor
  · simp [writeLane, hlen]
  · intro i
    simp only [writeLane]
    by_cases hij : i = j
    · subst hij
      by_cases hin : i < pw.speed.length
      · rw [getD_set_self pw.speed i avg 0 hin,
          getD_set_self pw.width i tw 0 (by omega)]
        exact Or.inl havg
      · rw [getD_set_out pw.speed i avg 0 hin,
          getD_set_out pw.width i tw 0 (by omega)]
        exact h i
    · rw [getD_set_ne pw.speed j i avg 0 (fun hh => hij hh.symm),
        getD_set_ne pw.width j i tw 0 (fun hh => hij hh.symm)]
      exact h i

theorem findLane_total {cfg : Config} {ss : ℚ} {tw : Int} {avg : ℚ}
    (hrs : (6000 : ℚ) + 1000 * cfg.danmaku_speed_adjust ≠ 0)
    (htw : 0 ≤ tw)
    (havg : avg = ((VIDEO_WIDTH : ℚ) + (tw : ℚ)) * 1000 /
      (6000 + 1000 * cfg.danmaku_speed_adjust)) :
    ∀ (remaining i : Nat) (pw : Passageway), SpeedInv cfg pw →
    ∃ res pw', findLane cfg ss tw avg i remaining pw = Except.ok (res, pw') ∧
      SpeedInv cfg pw' := by
  have havgnz : avg ≠ 0 := by
    rw [havg]
    apply div_ne_zero _ hrs
    apply mul_ne_zero _ (by norm_num)
    have : (0:ℚ) ≤ (tw : ℚ) := by exact_mod_cast htw
    norm_num [VIDEO_WIDTH]
    linarith
  intro remaining
  induction remaining with
  | zero =>
    intro i pw hinv
    exact ⟨none, pw, findLane_zero cfg ss tw avg i pw, hinv⟩
  | succ n ih =>
    intro i pw hinv
    by_cases h0 : pw.start.getD i 0 = 0
    · exact ⟨some i, _, findLane_free h0 havgnz, SpeedInv_writeLane hinv havg⟩
    · by_cases h1 : (ss - pw.start.getD i 0) * pw.speed.getD i 0 +
          (cfg.danmaku_density : ℚ) ≥ (pw.width.getD i 0 : ℚ)
      · by_cases h2 : pw.width.getD i 0 ≥ tw
        · exact ⟨some i, _, findLane_occupied_wide h0 h1 h2 havgnz,
            SpeedInv_writeLane hinv havg⟩
        · -- catch-up branch: the denominator is nonzero under the invariant
          have hden : avg - pw.speed.getD i 0 ≠ 0 := by
            rcases hinv.2 i with hsp | ⟨hw0, hs0⟩
            · rw [havg, hsp]
              rw [div_sub_div_same]
              apply div_ne_zero _ hrs
              have : ((VIDEO_WIDTH : ℚ) + (tw : ℚ)) * 1000 -
                  ((VIDEO_WIDTH : ℚ) + (pw.width.getD i 0 : ℚ)) * 1000 =
                  ((tw : ℚ) - (pw.width.getD i 0 : ℚ)) * 1000 := by ring
              rw [this]
              apply mul_ne_zero _ (by norm_num)
              have : (pw.width.getD i 0 : ℚ) < (tw : ℚ) := by exact_mod_cast by omega
              linarith
            · rw [hs0, sub_zero]
              exact havgnz
          rw [findLane] ; rw [if_neg h0]
          simp only
          rw [if_pos h1, if_neg h2, pydiv_eq_ok hden]
          dsimp only
          by_cases h3 : (((ss - pw.start.getD i 0) * pw.speed.getD i 0 +
              (cfg.danmaku_density : ℚ) - (pw.width.getD i 0 : ℚ)) /
              (avg - pw.speed.getD i 0)) > 0 ∧
              pw.finish.getD i 0 - (ss - pw.start.getD i 0) <
              (((ss - pw.start.getD i 0) * pw.speed.getD i 0 +
              (cfg.danmaku_density : ℚ) - (pw.width.getD i 0 : ℚ)) /
              (avg - pw.speed.getD i 0))
          · rw [if_pos h3]
            refine ⟨some i, writeLane pw i ss tw avg ((VIDEO_WIDTH : ℚ) / avg), ?_,
              SpeedInv_writeLane hinv havg⟩
            simp [acceptInto, pydiv, havgnz]
          · rw [if_neg h3]
            exact ih (i + 1) pw hinv
      · rw [findLane_occupied_blocked h0 h1]
        exact ih (i + 1) pw hinv

theorem averageSpeed_formula {cfg : Config} {d : Danmaku} (hheur : cfg.use_speed_a = false) :
    averageSpeed cfg d = ((VIDEO_WIDTH : ℚ) + (textWidth cfg d : ℚ)) * 1000 /
      (6000 + 1000 * cfg.danmaku_speed_adjust) := by
  unfold averageSpeed
  rw [realSpeed_noheur hheur]
  rw [div_div_eq_mul_div]

theorem process_normal_total {cfg : Config} {d : Danmaku} {pw : Passageway}
    (hheur : cfg.use_speed_a = false)
    (hrs : (6000 : ℚ) + 1000 * cfg.danmaku_speed_adjust ≠ 0)
    (hsize : 0 ≤ cfg.danmaku_size + 2)
    (hinv : SpeedInv cfg pw) :
    ∃ r pw', process_normal_danmaku cfg d pw = Except.ok (r, pw') ∧ SpeedInv cfg pw' := by
  have hrsd : realSpeed cfg d ≠ 0 := by rw [realSpeed_noheur hheur]; exact hrs
  obtain ⟨res, pw', hfl, hinv'⟩ :=
    @findLane_total cfg (startSeconds cfg d) (textWidth cfg d) (averageSpeed cfg d)
      hrs (textWidth_nonneg hsize d) (averageSpeed_formula hheur)
      (pw.start.length) 0 pw hinv
  unfold process_normal_danmaku
  dsimp only
  rw [pydiv_eq_ok (div_ne_zero hrsd (by norm_num))]
  rw [show ((VIDEO_WIDTH : ℚ) + (textWidth cfg d : ℚ)) / (realSpeed cfg d / 1000) =
    averageSpeed cfg d from rfl]
  dsimp only
  rw [hfl]
  cases res with
  | none => exact ⟨none, pw', rfl, hinv'⟩
  | some j => exact ⟨_, pw', rfl, hinv'⟩

theorem step_total {cfg : Config} {ids : List String} {acc : Accs} {pw : Passageway}
    {d : Danmaku}
    (hheur : cfg.use_speed_a = false)
    (hrs : (6000 : ℚ) + 1000 * cfg.danmaku_speed_adjust ≠ 0)
    (hsize : 0 ≤ cfg.danmaku_size + 2)
    (hinv : SpeedInv cfg pw) :
    ∃ acc' pw', step cfg ids acc pw d = Except.ok (acc', pw') ∧ SpeedInv cfg pw' := by
  unfold step
  split
  · exact ⟨acc, pw, rfl, hinv⟩
  · split
    · exact ⟨acc, pw, rfl, hinv⟩
    · split
      · exact ⟨acc, pw, rfl, hinv⟩
      · unfold dispatch
        split
        · split
          · split
            · exact ⟨acc, pw, rfl, hinv⟩
            · exact ⟨_, pw, rfl, hinv⟩
          · exact ⟨acc, pw, rfl, hinv⟩
        · split
          · split
            · split
              · exact ⟨acc, pw, rfl, hinv⟩
              · exact ⟨_, pw, rfl, hinv⟩
            · exact ⟨acc, pw, rfl, hinv⟩
          · dsimp only
            split
            · split
              · exact ⟨acc, pw, rfl, hinv⟩
              · exact ⟨_, pw, rfl, hinv⟩
            · split
              · exact ⟨acc, pw, rfl, hinv⟩
              · split
                · exact ⟨acc, pw, rfl, hinv⟩
                · obtain ⟨r, pw', hpn, hinv'⟩ := process_normal_total hheur hrs hsize hinv
                  rw [hpn]
                  cases r with
                  | none => exact ⟨acc, pw', rfl, hinv'⟩
                  | some line =>
                    dsimp only
                    by_cases hl : line = ""
                    · rw [if_pos hl]
                      exact ⟨acc, pw', rfl, hinv'⟩
                    · rw [if_neg hl]
                      exact ⟨_, pw', rfl, hinv'⟩

theorem convertFold_total {cfg : Config} {ids : List String}
    (hheur : cfg.use_speed_a = false)
    (hrs : (6000 : ℚ) + 1000 * cfg.danmaku_speed_adjust ≠ 0)
    (hsize : 0 ≤ cfg.danmaku_size + 2) :
    ∀ (ds : List Danmaku) (acc : Accs) (pw : Passageway), SpeedInv cfg pw →
    ∃ acc' pw', convertFold cfg ids ds acc pw = Except.ok (acc', pw') := by
  intro ds
  induction ds with
  | nil => intro acc pw _; exact ⟨acc, pw, rfl⟩
  | cons d rest ih =>
    intro acc pw hinv
    obtain ⟨acc', pw', hstep, hinv'⟩ :=
      @step_total cfg ids acc pw d hheur hrs hsize hinv
    rw [convertFold, hstep]
    exact ih acc' pw' hinv'

/-- **C3** (counterexample).  Pipeline totality fails as stated: with
`speedAdjust = −6` the base scroll speed `6000 + 1000·speedAdjust` is zero
and the speed computation `(screenWidth + textWidth) / (speed / 1000)`
divides by zero (`ZeroDivisionError`), which propagates out of
`convert_to_ass`. -/
theorem C3_cex : raised (convert_to_ass cexConfigNeg [] [cexD5]) = true := by
  decide

/-- **C3** (amended).  Pipeline totality under the conditions that keep every
denominator nonzero: with the speed heuristic off, a nonzero base speed
`6000 + 1000·speedAdjust`, and a nonnegative glyph width `danmaku_size + 2`,
the classification + lane-scheduling + rendering pipeline returns normally
(no exception) on every comment sequence and operator-ID list. -/
theorem C3_total {cfg : Config} (ids : List String) (ds : List Danmaku)
    (hheur : cfg.use_speed_a = false)
    (hrs : (6000 : ℚ) + 1000 * cfg.danmaku_speed_adjust ≠ 0)
    (hsize : 0 ≤ cfg.danmaku_size + 2) :
    ∃ out, convert_to_ass cfg ids ds = Except.ok out := by
  obtain ⟨acc', pw', hcf⟩ := convertFold_total hheur hrs hsize ds initAccs
    (initPassageway cfg) (SpeedInv_init cfg)
  unfold convert_to_ass
  rw [hcf]
  exact ⟨_, rfl⟩

/-- **C3** (witness).  The amended totality theorem applied to the default
configuration and a concrete two-comment input. -/
theorem C3_total_witness :
    cexConfig.use_speed_a = false ∧
    (6000 : ℚ) + 1000 * cexConfig.danmaku_speed_adjust ≠ 0 ∧
    0 ≤ cexConfig.danmaku_size + 2 ∧
    (∃ out, convert_to_ass cexConfig ["u"] [cexD1, cexD2] = Except.ok out) :=
  ⟨rfl, by decide, by decide, C3_total ["u"] [cexD1, cexD2] rfl (by decide) (by decide)⟩


set_option maxRecDepth 8000 in
/-- **C4** (counterexample).  The ×100 rescale does not track Office
classification: `cexOffice` is Office-classified (its sender is a manually
configured operator ID) and has both raw timestamp fields zero, yet its
`appearTime` is *not* multiplied by 100 — the emitted operator directive is
the one rendered from the raw `vpos = 5` (start `0:00:00.05`), not from
`vpos = 500` — because the rescale tests `premium == '2'`, and this comment's
tier is `"1"`. -/
theorem C4_cex :
    cexOffice.user_id ∈ (["op"] : List String) ∧
    cexOffice.date = 0 ∧ cexOffice.date_usec = 0 ∧
    rescale_office_time cexOffice = cexOffice ∧
    cexOffice.vpos * 100 ≠ cexOffice.vpos ∧
    (accsAfter (step cexConfig ["op"] initAccs (initPassageway cexConfig)
        cexOffice)).office_lines =
      [(process_office_danmaku cexOffice).getD ""] ∧
    process_office_danmaku cexOffice ≠
      process_office_danmaku { cexOffice with vpos := cexOffice.vpos * 100 } := by
  decide

/-- **C4** (amended).  The operator rescale as the code performs it: for any
comment surviving the drop filters, the category dispatch (and hence every
directive rendered downstream) sees `appearTime` multiplied by 100 exactly
when the comment's membership tier is `"2"` and both raw timestamp fields
are zero — independently of whether it is Office-classified. -/
theorem C4_rescale {cfg : Config} {ids : List String} {acc : Accs} {pw : Passageway}
    {d : Danmaku}
    (h1 : ¬(d.text = "" ∨ d.text = "※ NGコメントです ※"))
    (h2 : ¬ d.vpos < 0)
    (h3 : ¬ keywordFiltered cfg d.text = true) :
    (d.date = 0 ∧ d.date_usec = 0 ∧ d.premium = "2" →
      step cfg ids acc pw d = dispatch cfg ids acc pw { d with vpos := d.vpos * 100 }) ∧
    (¬(d.date = 0 ∧ d.date_usec = 0 ∧ d.premium = "2") →
      step cfg ids acc pw d = dispatch cfg ids acc pw d) := by
  constructor <;> intro hc
  · unfold step
    rw [if_neg h1, if_neg h2, if_neg h3]
    unfold rescale_office_time
    rw [if_pos hc]
  · unfold step rescale_office_time
    rw [if_neg h1, if_neg h2, if_neg h3, if_neg hc]

/-- **C4** (witness).  The rescale characterization applied to the concrete
manual-operator comment: tier `"1"`, so the dispatch sees the raw time. -/
theorem C4_rescale_witness :
    (¬(cexOffice.text = "" ∨ cexOffice.text = "※ NGコメントです ※")) ∧
    (¬ cexOffice.vpos < 0) ∧
    ((cexOffice.date = 0 ∧ cexOffice.date_usec = 0 ∧ cexOffice.premium = "2" →
      step cexConfig ["op"] initAccs (initPassageway cexConfig) cexOffice =
        dispatch cexConfig ["op"] initAccs (initPassageway cexConfig)
          { cexOffice with vpos := cexOffice.vpos * 100 }) ∧
     (¬(cexOffice.date = 0 ∧ cexOffice.date_usec = 0 ∧ cexOffice.premium = "2") →
      step cexConfig ["op"] initAccs (initPassageway cexConfig) cexOffice =
        dispatch cexConfig ["op"] initAccs (initPassageway cexConfig) cexOffice)) :=
  ⟨by decide, by decide, C4_rescale (by decide) (by decide) (by decide)⟩


set_option maxRecDepth 8000 in
/-- **C5** (counterexample).  With `colorEnabled` off, a Shita directive
still carries a looked-up color: `_process_shita_danmaku` never consults
`use_ass_colors`, so a bottom comment with style token `"shita red"` is
rendered with color `H0000FF` (red re-ordered to BGR), not the default
white. -/
theorem C5_cex :
    cexConfigNoColor.use_ass_colors = false ∧
    (accsAfter (step cexConfigNoColor [] initAccs (initPassageway cexConfigNoColor)
        cexShita)).shita_lines = [process_shita_danmaku cexShita] ∧
    get_color_ass cexShita.mail = "H0000FF" ∧
    pyIn "H0000FF" (process_shita_danmaku cexShita) ∧
    ¬ pyIn "HFFFFFF" (process_shita_danmaku cexShita) := by
  decide

/-- **C5** (amended).  With `colorEnabled` off, only Normal directives are
forced to the default white color (`HFFFFFF`); Shita and AA directives still
derive their color from the style token, and Office directives use fixed
built-in colors.  This theorem proves the Normal half: every Normal
directive emitted under `use_ass_colors = false` carries the color argument
`"HFFFFFF"`. -/
theorem C5_normal_white {cfg : Config} {d : Danmaku} {pw pw' : Passageway} {line : String}
    (hoff : cfg.use_ass_colors = false)
    (h : process_normal_danmaku cfg d pw = Except.ok (some line, pw')) :
    ∃ st et sy, line = normalDialogue st et VIDEO_WIDTH sy (-(textWidth cfg d)) sy
      (realSpeed cfg d) "HFFFFFF"
      (if cfg.difficult_vip = true ∧ d.premium = "25" then "\\alpha&H80&" else "")
      cfg.ass_code d.text := by
  unfold process_normal_danmaku at h
  dsimp only at h
  cases hdiv : pydiv ((VIDEO_WIDTH : ℚ) + (textWidth cfg d : ℚ)) (realSpeed cfg d / 1000) with
  | error e =>
    rw [hdiv] at h
    exact absurd h (by simp)
  | ok avg =>
    rw [hdiv] at h
    dsimp only at h
    cases hfl : findLane cfg (startSeconds cfg d) (textWidth cfg d) avg 0
        pw.start.length pw with
    | error e =>
      rw [hfl] at h
      exact absurd h (by simp)
    | ok res =>
      rcases res with ⟨idx, pw2⟩
      rw [hfl] at h
      cases idx with
      | none =>
        dsimp only at h
        exact absurd h (by simp)
      | some j =>
        dsimp only at h
        rw [Except.ok.injEq, Prod.mk.injEq, Option.some.injEq] at h
        refine ⟨format_time (startSeconds cfg d),
          format_time ((d.vpos : ℚ) / 100 + 16 + cfg.start_time_adjust),
          pyIDiv 64 2 + 64 * (j : Int), ?_⟩
        rw [← h.1]
        rw [if_neg (by rw [hoff]; simp)]

/-- **C5** (witness).  A Normal comment rendered under `use_ass_colors =
false` indeed carries the white color argument. -/
theorem C5_normal_white_witness :
    cexConfigNoColor.use_ass_colors = false ∧
    (∃ st et sy,
      lineOf (process_normal_danmaku cexConfigNoColor cexD1
          (initPassageway cexConfigNoColor)) =
        normalDialogue st et VIDEO_WIDTH sy (-(textWidth cexConfigNoColor cexD1)) sy
          (realSpeed cexConfigNoColor cexD1) "HFFFFFF"
          (if cexConfigNoColor.difficult_vip = true ∧ cexD1.premium = "25" then
            "\\alpha&H80&" else "")
          cexConfigNoColor.ass_code cexD1.text) := by
  refine ⟨rfl, ?_⟩
  have h : process_normal_danmaku cexConfigNoColor cexD1 (initPassageway cexConfigNoColor) =
      Except.ok (some (lineOf (process_normal_danmaku cexConfigNoColor cexD1
        (initPassageway cexConfigNoColor))),
        pwAfter (process_normal_danmaku cexConfigNoColor cexD1
          (initPassageway cexConfigNoColor))) := by
    rfl
  exact C5_normal_white rfl h

theorem str_ne_empty_of_length {a : String} (h : a.length ≠ 0) : a ≠ "" := by
  intro he
  rw [he] at h
  exact h rfl

theorem str_append_ne_empty {a : String} (b : String) (ha : a ≠ "") : a ++ b ≠ "" := by
  intro he
  have hl := congrArg String.length he
  rw [String.length_append] at hl
  rw [show ("" : String).length = 0 from rfl] at hl
  have : a.length = 0 := by omega
  exact ha (by cases a with | mk l => cases l with
    | nil => rfl
    | cons c cs => simp [String.length] at this)

theorem foldl_append_length : ∀ (l : List String) (acc : String),
    acc.length ≤ (List.foldl (fun r s => r ++ s) acc l).length
  | [], _ => Nat.le_refl _
  | s :: l, acc => by
    rw [List.foldl_cons]
    have h1 := foldl_append_length l (acc ++ s)
    rw [String.length_append] at h1
    omega

theorem join_cons_ne_empty {x : String} (l : List String) (hx : x ≠ "") :
    String.join (x :: l) ≠ "" := by
  apply str_ne_empty_of_length
  have h1 : (String.join (x :: l)).length ≥ ("" ++ x).length := by
    rw [String.join, List.foldl_cons]
    exact foldl_append_length l ("" ++ x)
  rw [String.length_append] at h1
  have hx' : x.length ≠ 0 := by
    intro h0
    apply hx
    cases x with | mk d =>
    cases d with
    | nil => rfl
    | cons c cs => simp [String.length] at h0
  omega

theorem splitOnFuel_ne_nil (sep : List Char) :
    ∀ (fuel : Nat) (acc l : List Char), splitOnFuel sep fuel acc l ≠ []
  | 0, acc, l => by simp [splitOnFuel]
  | fuel + 1, acc, [] => by simp [splitOnFuel]
  | fuel + 1, acc, c :: rest => by
    rw [splitOnFuel]
    split
    · simp
    · exact splitOnFuel_ne_nil sep fuel (c :: acc) rest

theorem pySplitOn_ne_nil (s sep : String) : pySplitOn s sep ≠ [] := by
  unfold pySplitOn
  split
  · simp
  · simp [splitOnFuel_ne_nil]

theorem process_shita_ne_empty (d : Danmaku) : process_shita_danmaku d ≠ "" := by
  unfold process_shita_danmaku
  repeat apply str_append_ne_empty
  decide

theorem process_office_none_iff (d : Danmaku) :
    process_office_danmaku d = none ↔
      officeSkipList.any (fun x => pyInB x d.text) = true := by
  unfold process_office_danmaku
  by_cases hc : officeSkipList.any (fun x => pyInB x d.text) = true
  · rw [if_pos hc]
    simp [hc]
  · rw [if_neg hc]
    simp [hc]

theorem process_office_ne_empty {d : Danmaku} {s : String}
    (h : process_office_danmaku d = some s) : s ≠ "" := by
  unfold process_office_danmaku at h
  by_cases hc : (officeSkipList.any fun x => pyInB x d.text) = true
  · rw [if_pos hc] at h
    exact absurd h (by simp)
  · rw [if_neg hc] at h
    simp only [Option.some.injEq] at h
    subst h
    repeat apply str_append_ne_empty
    decide

theorem process_aa_none_iff (d : Danmaku) :
    process_aa_danmaku d = none ↔ pyStartsWith d.text "/" = true := by
  unfold process_aa_danmaku
  by_cases hc : pyStartsWith d.text "/" = true
  · rw [if_pos hc]
    simp [hc]
  · rw [if_neg hc]
    simp [hc]

theorem process_aa_ne_empty {d : Danmaku} {s : String}
    (h : process_aa_danmaku d = some s) : s ≠ "" := by
  unfold process_aa_danmaku at h
  by_cases hc : pyStartsWith d.text "/" = true
  · rw [if_pos hc] at h
    exact absurd h (by simp)
  · rw [if_neg hc] at h
    simp only [Option.some.injEq] at h
    subst h
    obtain ⟨p, rest, hsplit⟩ := List.exists_cons_of_ne_nil (pySplitOn_ne_nil d.text "\n")
    rw [hsplit, enumMap]
    apply join_cons_ne_empty
    dsimp only
    split
    · repeat apply str_append_ne_empty
      decide
    · repeat apply str_append_ne_empty
      decide

theorem normalDialogue_ne_empty (st et : String) (sx sy ex ey : Int) (rs : ℚ)
    (co al code text : String) : normalDialogue st et sx sy ex ey rs co al code text ≠ "" := by
  unfold normalDialogue
  repeat apply str_append_ne_empty
  decide

theorem process_normal_some_shape {cfg : Config} {d : Danmaku} {pw pw' : Passageway}
    {line : String}
    (h : process_normal_danmaku cfg d pw = Except.ok (some line, pw')) :
    ∃ st et sy co al, line =
      normalDialogue st et VIDEO_WIDTH sy (-(textWidth cfg d)) sy (realSpeed cfg d)
        co al cfg.ass_code d.text := by
  unfold process_normal_danmaku at h
  dsimp only at h
  cases hdiv : pydiv ((VIDEO_WIDTH : ℚ) + (textWidth cfg d : ℚ)) (realSpeed cfg d / 1000) with
  | error e =>
    rw [hdiv] at h
    exact absurd h (by simp)
  | ok avg =>
    rw [hdiv] at h
    dsimp only at h
    cases hfl : findLane cfg (startSeconds cfg d) (textWidth cfg d) avg 0
        pw.start.length pw with
    | error e =>
      rw [hfl] at h
      exact absurd h (by simp)
    | ok res =>
      rcases res with ⟨idx, pw2⟩
      rw [hfl] at h
      cases idx with
      | none =>
        dsimp only at h
        exact absurd h (by simp)
      | some j =>
        dsimp only at h
        rw [Except.ok.injEq, Prod.mk.injEq, Option.some.injEq] at h
        exact ⟨_, _, _, _, _, h.1.symm⟩

/-- **C6** (counterexample).  Renderer totality fails as stated: an Office
comment containing `/vote` (classified Office by the sender check, which
precedes every other rule; not classified Dropped, and never reaching the
lane scheduler) produces no directive — `_process_office_danmaku` returns
`None` for the special command substrings. -/
theorem C6_cex :
    cexVote.text ≠ "" ∧ cexVote.text ≠ "※ NGコメントです ※" ∧ ¬ cexVote.vpos < 0 ∧
    keywordFiltered cexConfig cexVote.text = false ∧
    cexVote.user_id ∈ (["op"] : List String) ∧
    raised (step cexConfig ["op"] initAccs (initPassageway cexConfig) cexVote) = false ∧
    stepResult (step cexConfig ["op"] initAccs (initPassageway cexConfig) cexVote) =
      (initAccs, initPassageway cexConfig) := by
  decide

/-- **C6** (amended).  The renderer is total for every non-dropped comment
except exactly these: Office comments whose text contains one of the special
command substrings (`/vote`, `/nicoad`, `/gift`, `/spi`, `/info`, `/clear`),
AA comments whose text starts with `/`, and Normal comments rejected by the
lane scheduler; Shita comments always receive a directive.  Formally: a
pipeline step that emits nothing processed a comment that was filter-dropped,
an Office comment with a special command, an over-70-character comment
starting with `/`, a membership-filtered or `/`-prefixed normal comment, or
a Normal comment for which the scheduler found no lane. -/
theorem C6_no_directive {cfg : Config} {ids : List String} {acc acc' : Accs}
    {pw pw' : Passageway} {d : Danmaku}
    (h : step cfg ids acc pw d = Except.ok (acc', pw'))
    (hsame : acc' = acc) :
    (d.text = "" ∨ d.text = "※ NGコメントです ※") ∨ d.vpos < 0 ∨
    keywordFiltered cfg d.text = true ∨
    ((rescale_office_time d).user_id ∈ ids ∧
      officeSkipList.any (fun x => pyInB x (rescale_office_time d).text) = true) ∨
    ((rescale_office_time d).text.length ≥ 70 ∧
      pyStartsWith (rescale_office_time d).text "/" = true) ∨
    (cfg.filter_outsider = true ∧ (rescale_office_time d).premium = "25") ∨
    pyStartsWith (rescale_office_time d).text "/" = true ∨
    process_normal_danmaku cfg (rescale_office_time d) pw = Except.ok (none, pw') := by
  subst hsame
  unfold step at h
  split at h
  · rename_i h1
    exact Or.inl h1
  · split at h
    · rename_i h2
      exact Or.inr (Or.inl h2)
    · split at h
      · rename_i h3
        exact Or.inr (Or.inr (Or.inl h3))
      · unfold dispatch at h
        split at h
        · -- office branch
          rename_i hin
          split at h
          · rename_i office_line heq
            split at h
            · rename_i hl
              exact absurd hl (process_office_ne_empty heq)
            · rw [Except.ok.injEq, Prod.mk.injEq] at h
              have := congrArg Accs.office_lines h.1
              simp at this
          · rename_i heq
            exact Or.inr (Or.inr (Or.inr (Or.inl ⟨hin, (process_office_none_iff _).mp heq⟩)))
        · split at h
          · -- AA branch
            rename_i hlen
            split at h
            · rename_i aa_line heq
              split at h
              · rename_i hl
                exact absurd hl (process_aa_ne_empty heq)
              · rw [Except.ok.injEq, Prod.mk.injEq] at h
                have := congrArg Accs.aa_lines h.1
                simp at this
            · rename_i heq
              exact Or.inr (Or.inr (Or.inr (Or.inr (Or.inl
                ⟨hlen, (process_aa_none_iff _).mp heq⟩))))
          · split at h
            · -- shita branch: always emits
              dsimp only at h
              split at h
              · rename_i hl
                exact absurd hl (process_shita_ne_empty _)
              · rw [Except.ok.injEq, Prod.mk.injEq] at h
                have := congrArg Accs.shita_lines h.1
                simp at this
            · split at h
              · rename_i hout
                exact Or.inr (Or.inr (Or.inr (Or.inr (Or.inr (Or.inl hout)))))
              · split at h
                · rename_i hsl
                  exact Or.inr (Or.inr (Or.inr (Or.inr (Or.inr (Or.inr (Or.inl hsl))))))
                · split at h
                  · exact absurd h (by simp)
                  · rename_i line pw2 heq
                    split at h
                    · rename_i hl
                      obtain ⟨st, et, sy, co, al, hline⟩ := process_normal_some_shape heq
                      rw [hline] at hl
                      exact absurd hl (normalDialogue_ne_empty _ _ _ _ _ _ _ _ _ _ _)
                    · rw [Except.ok.injEq, Prod.mk.injEq] at h
                      have := congrArg Accs.normal_lines h.1
                      simp at this
                  · rename_i pw2 heq
                    rw [Except.ok.injEq, Prod.mk.injEq] at h
                    rw [← h.2]
                    exact Or.inr (Or.inr (Or.inr (Or.inr (Or.inr (Or.inr (Or.inr heq))))))

/-- **C6** (witness).  The no-directive characterization applied to the
concrete `/vote` operator comment: the disjunct that fires is the
Office-special-command one. -/
theorem C6_no_directive_witness :
    (cexVote.text = "" ∨ cexVote.text = "※ NGコメントです ※") ∨ cexVote.vpos < 0 ∨
    keywordFiltered cexConfig cexVote.text = true ∨
    ((rescale_office_time cexVote).user_id ∈ (["op"] : List String) ∧
      officeSkipList.any (fun x => pyInB x (rescale_office_time cexVote).text) = true) ∨
    ((rescale_office_time cexVote).text.length ≥ 70 ∧
      pyStartsWith (rescale_office_time cexVote).text "/" = true) ∨
    (cexConfig.filter_outsider = true ∧ (rescale_office_time cexVote).premium = "25") ∨
    pyStartsWith (rescale_office_time cexVote).text "/" = true ∨
    process_normal_danmaku cexConfig (rescale_office_time cexVote)
        (initPassageway cexConfig) =
      Except.ok (none, initPassageway cexConfig) :=
  C6_no_directive
    (by rfl : step cexConfig ["op"] initAccs (initPassageway cexConfig) cexVote =
      Except.ok (initAccs, initPassageway cexConfig)) rfl

theorem colorOfParts_findSome : ∀ parts : List String,
    colorOfParts parts = ((parts.findSome? part_color).getD "HFFFFFF")
  | [] => rfl
  | p :: rest => by
    rw [colorOfParts, List.findSome?_cons]
    by_cases h1 : pyStartsWith p "#" = true ∧ p.length = 7
    · rw [if_pos h1]
      rw [show part_color p = some (hexToAss p) from by unfold part_color; rw [if_pos h1]]
      rfl
    · rw [if_neg h1]
      rw [show part_color p = (css2assLookup (stripDigits p)).map hexToAss from by
        unfold part_color; rw [if_neg h1]]
      cases hcss : css2assLookup (stripDigits p) with
      | some hex => simp [hcss]
      | none => simp [hcss, colorOfParts_findSome rest]

/-- **C7** (counterexample).  The claimed precedence — hex anywhere in the
token before any named color — disagrees with the code: on the style token
`"red #00FF00"` the code's per-part scan returns red (`H0000FF`), while the
claimed rule would use the hex part (`H00FF00`). -/
theorem C7_cex :
    color_claimed "red #00FF00" = "H00FF00" ∧
    get_color_ass "red #00FF00" = "H0000FF" ∧
    ("H00FF00" : String) ≠ "H0000FF" := by
  decide

/-- **C7** (amended).  Color derivation scans the space-separated parts of
the style token left to right, and the first part that is either an explicit
7-character `#RRGGBB` color (checked before the name, within that part) or a
digit-stripped CSS color name decides the color, re-ordered to `HBBGGRR`;
when no part matches (or the token is empty), the default white `HFFFFFF`
results. -/
theorem C7_color :
    (∀ mail, get_color_ass mail = color_amended mail) ∧
    (∀ mail, ((pySplitOn mail " ").all fun p => (part_color p).isNone) = true →
      get_color_ass mail = "HFFFFFF") := by
  have hmain : ∀ mail, get_color_ass mail = color_amended mail := by
    intro mail
    unfold get_color_ass color_amended
    by_cases hm : mail = ""
    · rw [if_pos hm, if_pos hm]
    · rw [if_neg hm, if_neg hm, colorOfParts_findSome]
  refine ⟨hmain, fun mail hall => ?_⟩
  rw [hmain mail]
  unfold color_amended
  by_cases hm : mail = ""
  · rw [if_pos hm]
  · rw [if_neg hm]
    have : (pySplitOn mail " ").findSome? part_color = none := by
      rw [List.findSome?_eq_none_iff]
      intro x hx
      have := List.all_eq_true.mp hall x hx
      exact Option.isNone_iff_eq_none.mp this
    rw [this]
    rfl

/-- **C7** (witness).  The white-fallback half applied to the style token
`"ue big"`, which contains no recognized hex or named color. -/
theorem C7_color_witness :
    ((pySplitOn "ue big" " ").all fun p => (part_color p).isNone) = true ∧
    get_color_ass "ue big" = "HFFFFFF" :=
  ⟨by decide, C7_color.2 "ue big" (by decide)⟩

theorem dispatch_ids_congr {ids1 ids2 : List String}
    (h : ∀ x : String, x ∈ ids1 ↔ x ∈ ids2) (cfg : Config) (acc : Accs)
    (pw : Passageway) (d : Danmaku) :
    dispatch cfg ids1 acc pw d = dispatch cfg ids2 acc pw d := by
  unfold dispatch
  by_cases hmem : d.user_id ∈ ids1
  · rw [if_pos hmem, if_pos ((h d.user_id).mp hmem)]
  · rw [if_neg hmem, if_neg (fun hc => hmem ((h d.user_id).mpr hc))]

theorem step_ids_congr {ids1 ids2 : List String}
    (h : ∀ x : String, x ∈ ids1 ↔ x ∈ ids2) (cfg : Config) (acc : Accs)
    (pw : Passageway) (d : Danmaku) :
    step cfg ids1 acc pw d = step cfg ids2 acc pw d := by
  unfold step
  by_cases h1 : (d.text = "" ∨ d.text = "※ NGコメントです ※")
  · simp only [if_pos h1]
  · simp only [if_neg h1]
    by_cases h2 : d.vpos < 0
    · simp only [if_pos h2]
    · simp only [if_neg h2]
      by_cases h3 : keywordFiltered cfg d.text = true
      · simp only [if_pos h3]
      · simp only [if_neg h3]
        exact dispatch_ids_congr h cfg acc pw (rescale_office_time d)

theorem convertFold_ids_congr {ids1 ids2 : List String}
    (h : ∀ x : String, x ∈ ids1 ↔ x ∈ ids2) (cfg : Config) :
    ∀ (ds : List Danmaku) (acc : Accs) (pw : Passageway),
    convertFold cfg ids1 ds acc pw = convertFold cfg ids2 ds acc pw
  | [], _, _ => rfl
  | d :: rest, acc, pw => by
    rw [convertFold, convertFold, step_ids_congr h cfg acc pw d]
    cases step cfg ids2 acc pw d with
    | error e => rfl
    | ok p => exact convertFold_ids_congr h cfg rest p.1 p.2

/-- **C8** (confirmed).  Determinism / idempotence: the embedded pipeline is
a pure function of its inputs, and the source's only run-to-run
nondeterminism is the enumeration order of the Python `set` of auto-detected
operator IDs in `_check_office_ids` (hash-order dependent); the rendered
document is invariant under that order — any two operator-ID lists with the
same membership yield a byte-identical document, so two runs on identical
input and configuration always produce identical output. -/
theorem C8_determinism {cfg : Config} {ids1 ids2 : List String} (ds : List Danmaku)
    (h : ∀ x : String, x ∈ ids1 ↔ x ∈ ids2) :
    convert_to_ass cfg ids1 ds = convert_to_ass cfg ids2 ds := by
  unfold convert_to_ass
  rw [convertFold_ids_congr h cfg ds initAccs (initPassageway cfg)]

/-- **C8** (witness).  Two enumerations of the operator-ID set `{a, b}`
produce the same document on a concrete input. -/
theorem C8_determinism_witness :
    (∀ x : String, x ∈ (["a", "b"] : List String) ↔ x ∈ (["b", "a", "b"] : List String)) ∧
    convert_to_ass cexConfig ["a", "b"] [cexD1, cexOffice] =
      convert_to_ass cexConfig ["b", "a", "b"] [cexD1, cexOffice] :=
  ⟨fun x => by simp [List.mem_cons]; tauto,
   C8_determinism [cexD1, cexOffice] (fun x => by simp [List.mem_cons]; tauto)⟩

theorem process_normal_inv {cfg : Config} {d : Danmaku} {pw : Passageway}
    {r : Option String} {pw' : Passageway}
    (h : process_normal_danmaku cfg d pw = Except.ok (r, pw')) :
    (r = none ∧ pw' = pw) ∨
    (∃ j line, r = some line ∧ j < pw.start.length ∧
      ∃ s w sp f, pw' = writeLane pw j s w sp f) := by
  unfold process_normal_danmaku at h
  dsimp only at h
  cases hdiv : pydiv ((VIDEO_WIDTH : ℚ) + (textWidth cfg d : ℚ)) (realSpeed cfg d / 1000) with
  | error e =>
    rw [hdiv] at h
    exact absurd h (by simp)
  | ok avg =>
    rw [hdiv] at h
    dsimp only at h
    cases hfl : findLane cfg (startSeconds cfg d) (textWidth cfg d) avg 0
        pw.start.length pw with
    | error e =>
      rw [hfl] at h
      exact absurd h (by simp)
    | ok res =>
      rcases res with ⟨idx, pw2⟩
      rw [hfl] at h
      cases idx with
      | none =>
        dsimp only at h
        rw [Except.ok.injEq, Prod.mk.injEq] at h
        rcases findLane_inv cfg (startSeconds cfg d) (textWidth cfg d) avg
            pw.start.length 0 pw pw2 none hfl with ⟨_, hpw⟩ | ⟨j, hj⟩
        · exact Or.inl ⟨h.1.symm, by rw [← h.2, hpw]⟩
        · exact absurd hj.1 (by simp)
      | some j =>
        dsimp only at h
        rw [Except.ok.injEq, Prod.mk.injEq] at h
        rcases findLane_inv cfg (startSeconds cfg d) (textWidth cfg d) avg
            pw.start.length 0 pw pw2 (some j) hfl with ⟨hc, _⟩ | ⟨k, hk⟩
        · exact absurd hc (by simp)
        · have hkj : k = j := by
            have := hk.1
            simp only [Option.some.injEq] at this
            exact this.symm
          subst hkj
          refine Or.inr ⟨k, _, h.1.symm, by omega, _, _, _, _, by rw [← h.2, hk.2.2.2.2.1]⟩

/-- **C9** (confirmed).  Frame property of the lane state: a pipeline step
either leaves the whole lane state unchanged (Dropped / Office / Shita / AA
comments, and Normal comments rejected by every lane), or — exactly when a
Normal comment is accepted and its directive appended — overwrites the four
fields of the single accepted lane via `writeLane` and nothing else. -/
theorem C9_frame {cfg : Config} {ids : List String} {acc : Accs} {pw : Passageway}
    {d : Danmaku} {acc' : Accs} {pw' : Passageway}
    (h : step cfg ids acc pw d = Except.ok (acc', pw')) :
    pw' = pw ∨
    (∃ j line, j < pw.start.length ∧
      (∃ s w sp f, pw' = writeLane pw j s w sp f) ∧
      acc' = { acc with normal_lines := acc.normal_lines ++ [line] }) := by
  unfold step at h
  split at h
  · rw [Except.ok.injEq, Prod.mk.injEq] at h
    exact Or.inl h.2.symm
  · split at h
    · rw [Except.ok.injEq, Prod.mk.injEq] at h
      exact Or.inl h.2.symm
    · split at h
      · rw [Except.ok.injEq, Prod.mk.injEq] at h
        exact Or.inl h.2.symm
      · unfold dispatch at h
        split at h
        · split at h
          · split at h
            · rw [Except.ok.injEq, Prod.mk.injEq] at h
              exact Or.inl h.2.symm
            · rw [Except.ok.injEq, Prod.mk.injEq] at h
              exact Or.inl h.2.symm
          · rw [Except.ok.injEq, Prod.mk.injEq] at h
            exact Or.inl h.2.symm
        · split at h
          · split at h
            · split at h
              · rw [Except.ok.injEq, Prod.mk.injEq] at h
                exact Or.inl h.2.symm
              · rw [Except.ok.injEq, Prod.mk.injEq] at h
                exact Or.inl h.2.symm
            · rw [Except.ok.injEq, Prod.mk.injEq] at h
              exact Or.inl h.2.symm
          · split at h
            · dsimp only at h
              split at h
              · rw [Except.ok.injEq, Prod.mk.injEq] at h
                exact Or.inl h.2.symm
              · rw [Except.ok.injEq, Prod.mk.injEq] at h
                exact Or.inl h.2.symm
            · split at h
              · rw [Except.ok.injEq, Prod.mk.injEq] at h
                exact Or.inl h.2.symm
              · split at h
                · rw [Except.ok.injEq, Prod.mk.injEq] at h
                  exact Or.inl h.2.symm
                · split at h
                  · exact absurd h (by simp)
                  · rename_i line pw2 heq
                    split at h
                    · rename_i hl
                      obtain ⟨st, et, sy, co, al, hline⟩ := process_normal_some_shape heq
                      rw [hline] at hl
                      exact absurd hl (normalDialogue_ne_empty _ _ _ _ _ _ _ _ _ _ _)
                    · rw [Except.ok.injEq, Prod.mk.injEq] at h
                      rcases process_normal_inv heq with ⟨hc, _⟩ | ⟨j, line2, _, hjlt, hwl⟩
                      · exact absurd hc (by simp)
                      · refine Or.inr ⟨j, line, hjlt, ?_, ?_⟩
                        · rw [← h.2]
                          exact hwl
                        · rw [← h.1]
                  · rename_i pw2 heq
                    rw [Except.ok.injEq, Prod.mk.injEq] at h
                    rcases process_normal_inv heq with ⟨_, hpw⟩ | ⟨j, line2, hc, _⟩
                    · rw [← h.2, hpw]
                      exact Or.inl rfl
                    · exact absurd hc (by simp)

/-- **C9** (witness).  The frame property applied to a concrete accepted
Normal comment. -/
theorem C9_frame_witness :
    (stepResult (step cexConfig [] initAccs (initPassageway cexConfig) cexD1)).2 =
      initPassageway cexConfig ∨
    (∃ j line, j < (initPassageway cexConfig).start.length ∧
      (∃ s w sp f,
        (stepResult (step cexConfig [] initAccs (initPassageway cexConfig) cexD1)).2 =
          writeLane (initPassageway cexConfig) j s w sp f) ∧
      (stepResult (step cexConfig [] initAccs (initPassageway cexConfig) cexD1)).1 =
        { initAccs with normal_lines := initAccs.normal_lines ++ [line] }) :=
  @C9_frame cexConfig [] initAccs (initPassageway cexConfig) cexD1
    (stepResult (step cexConfig [] initAccs (initPassageway cexConfig) cexD1)).1
    (stepResult (step cexConfig [] initAccs (initPassageway cexConfig) cexD1)).2
    (by rfl)

theorem jsonChatLinesAux_length (parse : String → Option (Int × String)) :
    ∀ (cs : List JsonComment) (n : Nat), (jsonChatLinesAux parse n cs).length = cs.length
  | [], _ => rfl
  | _ :: rest, n => by
    rw [jsonChatLinesAux, List.length_cons, List.length_cons,
      jsonChatLinesAux_length parse rest (n + 1)]

theorem jsonChatLinesAux_get? (parse : String → Option (Int × String)) :
    ∀ (cs : List JsonComment) (n k : Nat) (c : JsonComment),
    cs.get? k = some c →
    (jsonChatLinesAux parse n cs).get? k = some (jsonChatLine parse (n + k + 1) c)
  | [], _, k, _, h => by simp at h
  | d :: rest, n, 0, c, h => by
    simp only [List.get?_cons_zero, Option.some.injEq] at h
    subst h
    rfl
  | d :: rest, n, k + 1, c, h => by
    simp only [List.get?_cons_succ] at h
    rw [jsonChatLinesAux, List.get?_cons_succ]
    have := jsonChatLinesAux_get? parse rest (n + 1) k c h
    rw [show n + 1 + k + 1 = n + (k + 1) + 1 by omega] at this
    exact this

/-- **C10** (confirmed).  Malformed-timestamp recovery in
`convert_json_to_xml`, for any timestamp parser (the `datetime` machinery is
abstracted as `parse`): every comment yields exactly one `<chat>` line, each
line depends only on its own comment and index (so one comment's failure
never affects the others and is never fatal), and a comment whose truncated
timestamp string fails to parse gets `date="0"` and `date_usec="0"`. -/
theorem C10_recovery (parse : String → Option (Int × String)) (comments : List JsonComment) :
    (jsonChatLines parse comments).length = comments.length ∧
    (∀ (k : Nat) (c : JsonComment), comments.get? k = some c →
      (jsonChatLines parse comments).get? k = some (jsonChatLine parse (k + 1) c)) ∧
    (∀ (c : JsonComment) (t : String), c.time = some t → t ≠ "" →
      parse (pySlice t 0 26) = none → jsonDateFields parse c = ("0", "0")) := by
  refine ⟨jsonChatLinesAux_length parse comments 0, fun k c h => ?_, fun c t ht hne hp => ?_⟩
  · have := jsonChatLinesAux_get? parse comments 0 k c h
    rw [show 0 + k + 1 = k + 1 by omega] at this
    exact this
  · unfold jsonDateFields
    rw [ht]
    dsimp only
    rw [if_neg hne, hp]

/-- **C10** (witness).  The recovery theorem applied to an always-failing
parser and a concrete two-comment list whose first timestamp is garbage. -/
theorem C10_recovery_witness :
    (jsonChatLines parseNone [cexJsonBad, cexJsonGood]).length =
      ([cexJsonBad, cexJsonGood] : List JsonComment).length ∧
    cexJsonBad.time = some "garbage" ∧ ("garbage" : String) ≠ "" ∧
    parseNone (pySlice "garbage" 0 26) = none ∧
    jsonDateFields parseNone cexJsonBad = ("0", "0") :=
  ⟨(C10_recovery parseNone [cexJsonBad, cexJsonGood]).1, rfl, by decide, rfl,
    (C10_recovery parseNone [cexJsonBad, cexJsonGood]).2.2 cexJsonBad "garbage" rfl
      (by decide) rfl⟩

end SkToolbox
